import Mathlib

/-!
# Authentication core of the blog backend

A shallow embedding of `src/api/middleware/auth.js`, `src/api/routes/auth.js`,
`src/api/routes/password.js`, `src/api/routes/settings.js` and
`src/api/utils/crypto.js`, followed by theorems about the embedded functions.

Conventions of the embedding.

* A JavaScript value that may be `undefined` is an `Option`.
* A handler is a pure function from what it reads (request, settings table,
  clock, library functions) to an outcome record listing what it did: the
  response it sent, how often it called `next()`, the session it left behind,
  and the log lines it wrote.
* `try { ... } catch` blocks are `Except JsError` computations.
* Library functions that are not part of the repository (`bcrypt.hash`,
  `bcrypt.compare`, the text parser of the `Date` constructor) and the
  outcome of the random source are parameters.
-/

namespace BlogBackend

/-! ## JavaScript values used by the handlers -/

/-- Exceptions that the embedded code can raise. -/
inductive JsError where
  | referenceError (msg : String)
  | typeError (msg : String)
  | rangeError (msg : String)
  | dbError (msg : String)
  | libError (msg : String)
  deriving DecidableEq, Repr

/-- Number of UTF-16 code units of one character. -/
def utf16Units (c : Char) : Nat :=
  if c.toNat < 65536 then 1 else 2

/-- The JavaScript `length` of a string: its number of UTF-16 code units. -/
def jsLength (s : String) : Nat :=
  (s.data.map utf16Units).sum

/-- Severity of a log line (`logger.debug/info/warn/error`). -/
inductive LogLevel where
  | debug
  | info
  | warn
  | error
  deriving DecidableEq, Repr

/-- One line handed to the logger: level and message (metadata is dropped). -/
structure LogEntry where
  level : LogLevel
  message : String
  deriving DecidableEq, Repr

/-! ## Sessions and requests -/

/-- The fields of `req.session` that the code reads or writes. -/
structure Session where
  id : String
  authenticated : Bool
  userType : Option String
  loginTime : Option String
  expiryTime : Option String
  deriving DecidableEq, Repr

/-- A request as seen by the middleware: `req.session` may be undefined. -/
structure Request where
  session : Option Session
  originalUrl : String
  deriving DecidableEq, Repr

/-- A JSON error body `{ success: false, error, code }` sent with a status. -/
structure Denial where
  status : Nat
  success : Bool
  error : String
  code : Option String
  deriving DecidableEq, Repr

/-- What one middleware call did. -/
structure Outcome where
  /-- the response sent through `res`, if any -/
  reply : Option Denial
  /-- how many times `next()` was invoked -/
  nextCalls : Nat
  /-- `req.session` after the call -/
  session : Option Session
  /-- whether `req.session.destroy()` was invoked -/
  destroyed : Bool
  /-- log lines, oldest first -/
  logs : List LogEntry
  deriving DecidableEq, Repr

/-! ## `src/api/middleware/auth.js` -/

/-- The body sent by both gates for a missing or unauthenticated session. -/
def authenticationRequired : Denial :=
  { status := 401, success := false, error := "需要认证", code := some "AUTHENTICATION_REQUIRED" }

/-- The body sent by `requireCoupleAuth` after its authentication test. -/
def insufficientPermissions : Denial :=
  { status := 403, success := false, error := "访问不合法", code := some "INSUFFICIENT_PERMISSIONS" }

/-- Embedding of `requireAuth` (auth.js lines 3-17). -/
def requireAuth (req : Request) : Outcome :=
  match req.session with
  | none =>
    { reply := some authenticationRequired, nextCalls := 0, session := req.session,
      destroyed := false, logs := [{ level := .warn, message := "未认证的访问尝试" }] }
  | some s =>
    if !s.authenticated then
      { reply := some authenticationRequired, nextCalls := 0, session := req.session,
        destroyed := false, logs := [{ level := .warn, message := "未认证的访问尝试" }] }
    else
      { reply := none, nextCalls := 1, session := req.session, destroyed := false, logs := [] }

/-- Embedding of `requireCoupleAuth` (auth.js lines 19-40).  The test
`req.session.userType !== "couple"` guards an empty block, the 403 follows it
unconditionally, and the trailing `next()` sits after a `return`. -/
def requireCoupleAuth (req : Request) : Outcome :=
  match req.session with
  | none =>
    { reply := some authenticationRequired, nextCalls := 0, session := req.session,
      destroyed := false, logs := [] }
  | some s =>
    if !s.authenticated then
      { reply := some authenticationRequired, nextCalls := 0, session := req.session,
        destroyed := false, logs := [] }
    else
      -- `if (req.session.userType !== "couple") { }`
      let _emptyBlock : Unit := if s.userType ≠ some "couple" then () else ()
      -- `logger.warn(...)` and `return res.status(403).json(...)`
      { reply := some insufficientPermissions, nextCalls := 0, session := req.session,
        destroyed := false, logs := [{ level := .warn, message := "访客尝试访问私有功能" }] }
      -- `next()` on line 39 is never reached

/-! ## Dates -/

/-- A JavaScript `Date`: `none` is an Invalid Date (time value NaN), `some t`
holds the time value `t` in milliseconds since the epoch. -/
abbrev JsDate := Option Int

/-- The comparison `a > b` on two `Date` objects: both are converted to their
time values, and any comparison with NaN is false. -/
def dateGt (a b : JsDate) : Bool :=
  match a, b with
  | some x, some y => decide (y < x)
  | _, _ => false

/-- The decimal digit `d % 10` as a character. -/
def digitChar (d : Nat) : Char :=
  Char.ofNat (48 + d % 10)

/-- The last `width` decimal digits of `n`, zero padded. -/
def padDigits : Nat → Nat → List Char
  | 0, _ => []
  | w + 1, n => padDigits w (n / 10) ++ [digitChar n]

/-- Proleptic Gregorian `(year, month, day)` of a day number counted from
1970-01-01 (the `YearFromTime`, `MonthFromTime`, `DateFromTime` of ECMAScript). -/
def civilFromDays (day : Int) : Int × Nat × Nat :=
  let z := day + 719468
  let era := z / 146097
  let doe := (z - era * 146097).toNat
  let yoe := (doe - doe / 1460 + doe / 36524 - doe / 146096) / 365
  let doy := doe - (365 * yoe + yoe / 4 - yoe / 100)
  let mp := (5 * doy + 2) / 153
  let d := doy - (153 * mp + 2) / 5 + 1
  let m := if mp < 10 then mp + 3 else mp - 9
  let y := (yoe : Int) + era * 400 + (if m ≤ 2 then 1 else 0)
  (y, m, d)

/-- The text `YYYY-MM-DDTHH:mm:ss.sssZ` of a valid time value; years outside
0..9999 are written with a sign and six digits. -/
def isoOfTime (t : Int) : String :=
  let day := t / 86400000
  let ms := (t % 86400000).toNat
  let (y, m, d) := civilFromDays day
  let year : List Char :=
    if 0 ≤ y ∧ y ≤ 9999 then padDigits 4 y.toNat
    else (if y < 0 then '-' else '+') :: padDigits 6 y.natAbs
  String.mk (year ++ '-' :: padDigits 2 m ++ '-' :: padDigits 2 d ++ 'T' ::
    padDigits 2 (ms / 3600000) ++ ':' :: padDigits 2 (ms / 60000 % 60) ++ ':' ::
    padDigits 2 (ms / 1000 % 60) ++ '.' :: padDigits 3 (ms % 1000) ++ ['Z'])

/-- The largest time value a `Date` can hold, in milliseconds. -/
def maxTimeValue : Int := 8640000000000000

/-- The expression `new Date(value)` on an integral number: the time value
`value` when it lies within the range of `Date`, an Invalid Date otherwise. -/
def dateOfNumber (value : Int) : JsDate :=
  if -maxTimeValue ≤ value ∧ value ≤ maxTimeValue then some value else none

/-- Embedding of `Date.prototype.toISOString`: a RangeError on an Invalid Date. -/
def toISOString : JsDate → Except JsError String
  | none => .error (.rangeError "Invalid time value")
  | some t => .ok (isoOfTime t)

/-! ## The settings table -/

/-- One row of the `settings` table.  The handlers embedded here only test
`value` for truthiness, where a NULL behaves like the empty string, so the
column is a plain string. -/
structure SettingRow where
  key : String
  value : String
  updated_at : String
  deriving DecidableEq, Repr

/-- One row of the `password_history` table; `created_at` is filled in by the
database when the row is inserted. -/
structure HistoryRow where
  password_type : String
  password_hash : String
  created_at : String
  deriving DecidableEq, Repr

/-- The database as one request sees it: the rows of `settings`, the
positions (in program order, from 0) of the statements of this request that
the driver rejects, the rows of `password_history` (oldest first), and the
timestamp the database gives to rows inserted during this request. -/
structure Db where
  settings : List SettingRow
  failing : List Nat := []
  history : List HistoryRow := []
  currentTimestamp : String := ""
  deriving DecidableEq, Repr

/-- Embedding of `global.db.get("SELECT ... FROM settings WHERE key = ?")` issued as
statement number `op`: the first matching row, `none` for undefined, or a
rejected promise. -/
def Db.get (db : Db) (op : Nat) (key : String) : Except JsError (Option SettingRow) :=
  if op ∈ db.failing then .error (.dbError "database statement failed")
  else .ok (db.settings.find? (fun r => r.key == key))

/-- The test `result && result.value` on the result of `Db.get`: the value when
the row exists and its value is a non-empty string. -/
def truthyValue : Option SettingRow → Option String
  | some r => if r.value = "" then none else some r.value
  | none => none

/-- Modelled from the spec: the schema `models/database.sql` of the `settings`
table is not among the sources.  The spec gives the statement
`INSERT OR REPLACE INTO settings (key, value, updated_at) VALUES (?, ?, ?)`
upsert-by-key semantics: it replaces any existing row for that key and
timestamps the update.  Issued as statement number `op`; a rejected statement
changes nothing. -/
def Db.upsertSetting (db : Db) (op : Nat) (key value updated_at : String) : Except JsError Db :=
  if op ∈ db.failing then .error (.dbError "database statement failed")
  else .ok { db with settings := db.settings.filter (fun r => !(r.key == key))
                                  ++ [{ key := key, value := value, updated_at := updated_at }] }

/-- Modelled from the spec: the schema `models/database.sql` of the
`password_history` table is not among the sources.  The spec describes the
history as append-only and ordered by creation time, so the statement
`INSERT INTO password_history (password_type, password_hash) VALUES (?, ?)`
appends one row, stamped by the database.  Issued as statement number `op`; a
rejected statement changes nothing. -/
def Db.insertHistory (db : Db) (op : Nat) (password_type password_hash : String) :
    Except JsError Db :=
  if op ∈ db.failing then .error (.dbError "database statement failed")
  else .ok { db with history := db.history
                                  ++ [{ password_type := password_type,
                                        password_hash := password_hash,
                                        created_at := db.currentTimestamp }] }

/-- Embedding of `global.db.run("DELETE FROM settings WHERE key IN (...)")` issued as
statement number `op`: one statement that removes every row whose key is
listed; a rejected statement changes nothing. -/
def Db.deleteSettings (db : Db) (op : Nat) (keys : List String) : Except JsError Db :=
  if op ∈ db.failing then .error (.dbError "database statement failed")
  else .ok { db with settings := db.settings.filter (fun r => !(keys.contains r.key)) }

/-- One row of the result of `SELECT password_type, created_at FROM
password_history`: the two selected columns. -/
structure HistoryItem where
  password_type : String
  created_at : String
  deriving DecidableEq, Repr

/-- The two columns of a history row that `GET /history` selects. -/
def HistoryRow.selected (r : HistoryRow) : HistoryItem :=
  { password_type := r.password_type, created_at := r.created_at }

/-- The order of `ORDER BY created_at DESC`: `a` may come before `b` when the
text `created_at` of `a` is not below that of `b`. -/
def HistoryItem.notOlder (a b : HistoryItem) : Prop :=
  b.created_at ≤ a.created_at

instance HistoryItem.decidableNotOlder : DecidableRel HistoryItem.notOlder :=
  fun a b => inferInstanceAs (Decidable (b.created_at ≤ a.created_at))

instance HistoryItem.notOlder_total : IsTotal HistoryItem HistoryItem.notOlder :=
  ⟨fun a b => le_total b.created_at a.created_at⟩

instance HistoryItem.notOlder_trans : IsTrans HistoryItem HistoryItem.notOlder :=
  ⟨fun _ _ _ hab hbc => le_trans hbc hab⟩

/-- Modelled from the spec: the schema `models/database.sql` of the
`password_history` table is not among the sources.  The spec describes the
history as ordered by creation time and queried most recent first, so the
statement `SELECT password_type, created_at FROM password_history ORDER BY
created_at DESC LIMIT 10` yields the two selected columns of the rows, latest
`created_at` first, cut after ten rows.  Rows with equal `created_at` are
given in table order (SQL leaves their order open).  Issued as statement
number `op`. -/
def Db.recentHistory (db : Db) (op : Nat) : Except JsError (List HistoryItem) :=
  if op ∈ db.failing then .error (.dbError "database statement failed")
  else
    let selected : List HistoryItem := db.history.map HistoryRow.selected
    .ok ((selected.insertionSort HistoryItem.notOlder).take 10)

/-- Embedding of `global.db.all("SELECT key, value, description FROM settings")`
issued as statement number `op`: every row of the table, or a rejected promise.
The column `description` is not read by the code and is left out. -/
def Db.allSettings (db : Db) (op : Nat) : Except JsError (List SettingRow) :=
  if op ∈ db.failing then .error (.dbError "database statement failed")
  else .ok db.settings

/-! ## `checkVisitorExpiry` -/

/-- The expression `new Data()` on line 54 of auth.js.  No binding named `Data`
exists in the module or among the globals, so evaluating it raises a
ReferenceError. -/
def newData : Except JsError JsDate :=
  .error (.referenceError "Data is not defined")

/-- The body sent when the visitor expiry check fires. -/
def visitorExpired : Denial :=
  { status := 401, success := false, error := "访客权限已过期，请联系邀请者重新创建邀请密码",
    code := some "VISITOR_EXPIRED" }

/-- The `try` block of `checkVisitorExpiry` (auth.js lines 48-67): `some o` when
the block returned with outcome `o`, `none` when it ran to its end. -/
def checkVisitorExpiryTry (dateParse : String → JsDate) (db : Db) :
    Except JsError (Option Outcome) := do
  let result ← db.get 0 "visitor_password_expires"
  match truthyValue result with
  | some value =>
    let expiryTime := dateParse value
    let now ← newData
    if dateGt now expiryTime then
      let _expiredAt ← toISOString expiryTime
      -- `req.session.destroy()` and `return res.status(401).json(...)`
      return some { reply := some visitorExpired, nextCalls := 0, session := none,
                    destroyed := true,
                    logs := [{ level := .info, message := "访客会话过期" }] }
    else
      return none
  | none => return none

/-- The outcome of reaching the final `next()` of `checkVisitorExpiry`. -/
def passThrough (req : Request) (logs : List LogEntry) : Outcome :=
  { reply := none, nextCalls := 1, session := req.session, destroyed := false, logs := logs }

/-- Embedding of `checkVisitorExpiry` (auth.js lines 42-73). -/
def checkVisitorExpiry (dateParse : String → JsDate) (db : Db) (req : Request) : Outcome :=
  match req.session with
  | none => passThrough req []
  | some s =>
    if s.authenticated && s.userType == some "visitor" then
      match checkVisitorExpiryTry dateParse db with
      | .ok (some o) => o
      | .ok none => passThrough req []
      | .error _ => passThrough req [{ level := .error, message := "检查访客权限时出错" }]
    else passThrough req []

/-! ## `src/api/utils/crypto.js` -/

/-- The type of `bcrypt.compare(data, hash)`: a boolean, or a rejected promise. -/
abbrev BcryptCompare := String → String → Except JsError Bool

/-- JavaScript truthiness of a value that is a string or undefined. -/
def truthy : Option String → Bool
  | some s => s != ""
  | none => false

/-- Embedding of `PasswordCrypto.verifyPassword` (crypto.js lines 27-40); its
debug and error log lines are not recorded. -/
def verifyPassword (bcryptCompare : BcryptCompare) (plainPassword hashedPassword : Option String) :
    Bool :=
  if !truthy plainPassword || !truthy hashedPassword then false
  else
    match plainPassword, hashedPassword with
    | some plain, some hashed =>
      match bcryptCompare plain hashed with
      | .ok isValid => isValid
      | .error _ => false
    | _, _ => false

/-- The object `{ isValid, errors }` returned by `validatePasswordStrength`. -/
structure Validation where
  isValid : Bool
  errors : List String
  deriving DecidableEq, Repr

/-- Embedding of `PasswordCrypto.validatePasswordStrength` (crypto.js lines
88-113) on a string argument. -/
def validatePasswordStrength (password : String) : Validation :=
  let errors : List String := []
  if !truthy (some password) then
    { isValid := false, errors := errors ++ ["密码不能为空"] }
  else
    let errors := if jsLength password < 6 then errors ++ ["密码长度至少6个字符"] else errors
    let errors := if jsLength password > 100 then errors ++ ["密码长度不能超过100个字符"] else errors
    { isValid := errors.length == 0, errors := errors }

/-- The `message` property of an exception. -/
def JsError.message : JsError → String
  | .referenceError msg => msg
  | .typeError msg => msg
  | .rangeError msg => msg
  | .dbError msg => msg
  | .libError msg => msg

/-- The `try` block of `verifyPassword` (crypto.js lines 29-35): the awaited
`bcrypt.compare` may reject, which raises inside the block. -/
def verifyPasswordTry (bcryptCompare : BcryptCompare)
    (plainPassword hashedPassword : Option String) : Except JsError Bool :=
  if !truthy plainPassword || !truthy hashedPassword then .ok false
  else
    match plainPassword, hashedPassword with
    | some plain, some hashed => bcryptCompare plain hashed
    | _, _ => .ok false

/-- The promise returned by `verifyPassword` (crypto.js lines 27-40): the `try`
block, and the `catch` that logs and returns false. -/
def verifyPasswordPromise (bcryptCompare : BcryptCompare)
    (plainPassword hashedPassword : Option String) : Except JsError Bool :=
  match verifyPasswordTry bcryptCompare plainPassword hashedPassword with
  | .ok isValid => .ok isValid
  | .error _ => .ok false

/-- The type of `bcrypt.hash(data, rounds)` with the salt one call draws: a
digest, or a rejected promise. -/
abbrev BcryptHash := String → Nat → Except JsError String

/-- The constant `SALT_ROUNDS` of crypto.js. -/
def SALT_ROUNDS : Nat := 12

/-- Embedding of `PasswordCrypto.hashPassword` (crypto.js lines 11-24): any
exception of the `try` block is raised again with a prefixed message. -/
def hashPassword (bcryptHash : BcryptHash) (plainPassword : Option String) :
    Except JsError String :=
  let attempt : Except JsError String :=
    match plainPassword with
    | some plain =>
      if !truthy plainPassword || jsLength plain < 1 then .error (.libError "密码不能为空")
      else bcryptHash plain SALT_ROUNDS
    | none => .error (.libError "密码不能为空")
  match attempt with
  | .ok hash => .ok hash
  | .error error => .error (.libError ("密码哈希失败: " ++ error.message))

/-- The constant `charset` of `generateRandomPassword`. -/
def charset : String :=
  "abcdefghijklmnopqrstuvwxyzABCDEFGHIJKLMNOPQRSTUVWXYZ0123456789!@#$%^&*"

/-- The `k`-th call of `crypto.randomInt(max)`: an integer below `max`, taken
from the `k`-th draw of the random source. -/
def randomInt (random : Nat → Nat) (k max : Nat) : Nat :=
  random k % max

/-- The expression `text[index]` on a string of one-unit characters: the
character at that position, or `undefined`, which `+=` appends as text. -/
def charAt (text : String) (index : Nat) : String :=
  match text.data[index]? with
  | some c => String.singleton c
  | none => "undefined"

/-- Embedding of `PasswordCrypto.generateRandomPassword` (crypto.js lines
116-127): `length` rounds of the loop, each appending one drawn character. -/
def generateRandomPassword (random : Nat → Nat) (length : Nat) : String :=
  (List.range length).foldl
    (fun password i => password ++ charAt charset (randomInt random i (jsLength charset))) ""

/-! ## `POST /login` of `src/api/routes/auth.js` -/

/-- A login request: the `password` field of the JSON body (a string, or
`none` when the field is absent) and `req.session`. -/
structure LoginRequest where
  password : Option String
  session : Option Session
  deriving DecidableEq, Repr

/-- The JSON bodies the login handler sends. -/
inductive LoginBody where
  /-- the body `{ success: false, error }` -/
  | failure (error : String)
  /-- the body `{ success: true, user: { type }, message, expiryTime }` -/
  | success (userType : Option String) (message : String) (expiryTime : Option String)
  deriving DecidableEq, Repr

/-- A response of the login handler: status code and body. -/
structure LoginReply where
  status : Nat
  body : LoginBody
  deriving DecidableEq, Repr

/-- What one call of the login handler did. -/
structure LoginOutcome where
  reply : LoginReply
  /-- `req.session` when the handler finished -/
  session : Option Session
  logs : List LogEntry
  deriving DecidableEq, Repr

/-- The state in which the `try` block of the login handler stopped: the
session as mutated so far, the log so far, and either the response sent or the
exception that reached the `catch`. -/
structure LoginRun where
  session : Option Session
  logs : List LogEntry
  result : Except JsError LoginReply

/-- The local variables `userType` and `loginSuccess` after lines 30-56, with
the log line written on the way. -/
structure LoginMatch where
  userType : Option String
  loginSuccess : Bool
  logs : List LogEntry
  deriving DecidableEq, Repr

/-- Lines 30-56 of the login handler: the couple hash is tried first, the
visitor hash only in the `else` branch. -/
def loginMatch (bcryptCompare : BcryptCompare) (password : Option String)
    (couplePasswordHash visitorPasswordHash : String) : LoginMatch :=
  if truthy (some couplePasswordHash) &&
      verifyPassword bcryptCompare password (some couplePasswordHash) then
    { userType := some "couple", loginSuccess := true,
      logs := [{ level := .info, message := "情侣用户登录成功" }] }
  else if truthy (some visitorPasswordHash) &&
      verifyPassword bcryptCompare password (some visitorPasswordHash) then
    { userType := some "visitor", loginSuccess := true,
      logs := [{ level := .info, message := "访客用户登录成功" }] }
  else
    { userType := none, loginSuccess := false, logs := [] }

/-- The success body built on lines 95-102 from the session as it then is. -/
def loginSuccessReply (userType : Option String) (s : Session) : LoginReply :=
  { status := 200,
    body := .success userType
      ((if userType = some "couple" then "情侣" else "访客") ++ "登录成功")
      (if truthy s.expiryTime then s.expiryTime else none) }

/-- Lines 69-102 of the login handler, reached once `loginSuccess` holds: the
session is marked first, the visitor expiry is read after. -/
def loginEstablish (dateParse : String → JsDate) (db : Db) (clock : Nat → Int)
    (userType : Option String) (logs : List LogEntry) : Option Session → LoginRun
  | none =>
    -- `req.session.authenticated = true` on an undefined session
    { session := none, logs := logs,
      result := .error (.typeError "Cannot set properties of undefined") }
  | some s0 =>
    let s1 : Session :=
      { s0 with authenticated := true, userType := userType,
                loginTime := some (isoOfTime (clock 0)) }
    if userType = some "visitor" then
      match db.get 2 "visitor_password_expires" with
      | .error e => { session := some s1, logs := logs, result := .error e }
      | .ok expiryResult =>
        match truthyValue expiryResult with
        | some value =>
          let expiryTime := dateParse value
          let now : JsDate := some (clock 1)
          if dateGt now expiryTime then
            { session := some s1, logs := logs,
              result := .ok { status := 401, body := .failure "访客权限已过期" } }
          else
            match toISOString expiryTime with
            | .error e => { session := some s1, logs := logs, result := .error e }
            | .ok iso =>
              let s2 : Session := { s1 with expiryTime := some iso }
              { session := some s2, logs := logs, result := .ok (loginSuccessReply userType s2) }
        | none =>
          { session := some s1, logs := logs, result := .ok (loginSuccessReply userType s1) }
    else
      { session := some s1, logs := logs, result := .ok (loginSuccessReply userType s1) }

/-- The `try` block of the login handler (auth.js lines 10-102).  `clock k` is
the time returned by the `k`-th evaluation of `new Date()`. -/
def loginTry (bcryptCompare : BcryptCompare) (dateParse : String → JsDate) (db : Db)
    (clock : Nat → Int) (req : LoginRequest) : LoginRun :=
  if !truthy req.password then
    { session := req.session, logs := [],
      result := .ok { status := 400, body := .failure "密码不能为空" } }
  else
    match db.get 0 "couple_password_hash" with
    | .error e => { session := req.session, logs := [], result := .error e }
    | .ok couplePasswordResult =>
    match db.get 1 "visitor_password_hash" with
    | .error e => { session := req.session, logs := [], result := .error e }
    | .ok visitorPasswordResult =>
      -- `couplePasswordResult?.value || ""`
      let couplePasswordHash : String := (truthyValue couplePasswordResult).getD ""
      let visitorPasswordHash : String := (truthyValue visitorPasswordResult).getD ""
      let m := loginMatch bcryptCompare req.password couplePasswordHash visitorPasswordHash
      if !m.loginSuccess then
        { session := req.session,
          logs := m.logs ++ [{ level := .warn, message := "登录失败 - 密码错误" }],
          result := .ok { status := 401, body := .failure "密码错误" } }
      else
        loginEstablish dateParse db clock m.userType m.logs req.session

/-- Embedding of the `POST /login` handler (auth.js lines 8-110): the `try`
block, and the `catch` that answers 500. -/
def login (bcryptCompare : BcryptCompare) (dateParse : String → JsDate) (db : Db)
    (clock : Nat → Int) (req : LoginRequest) : LoginOutcome :=
  let run := loginTry bcryptCompare dateParse db clock req
  match run.result with
  | .ok reply => { reply := reply, session := run.session, logs := run.logs }
  | .error _ =>
    { reply := { status := 500, body := .failure "服务器错误" }, session := run.session,
      logs := run.logs ++ [{ level := .error, message := "登录过程中发生错误:" }] }

/-! ## `src/api/routes/password.js`

The handler functions of the password routes.  Numbers in a request body are
integers; a field that is absent is `none`. -/

/-- The JSON bodies the password handlers send. -/
inductive PasswordBody where
  /-- the body `{ success: false, error, details? }` -/
  | failure (error : String) (details : Option (List String))
  /-- the body `{ success: true, message }` -/
  | done (message : String)
  /-- the body `{ success: true, message, expiresAt, expiryHours }` -/
  | visitorSet (message : String) (expiresAt : String) (expiryHours : Int)
  /-- the body `{ success: true, message, password, expiresAt, expiryHours }` -/
  | generated (message : String) (password : String) (expiresAt : String) (expiryHours : Int)
  deriving DecidableEq, Repr

/-- A response of a password handler: status code and body. -/
structure PasswordReply where
  status : Nat
  body : PasswordBody
  deriving DecidableEq, Repr

/-- The state in which the `try` block of a password handler stopped: the
database as written so far, the log so far, and either the response sent or
the exception that reached the `catch`. -/
structure PasswordRun where
  db : Db
  logs : List LogEntry
  result : Except JsError PasswordReply

/-- What one call of a password handler did. -/
structure PasswordOutcome where
  reply : PasswordReply
  /-- the database when the handler finished -/
  db : Db
  logs : List LogEntry
  deriving DecidableEq, Repr

/-- The `catch` block shared by the password handlers: log, and answer 500
with the message of the handler. -/
def PasswordRun.finish (run : PasswordRun) (logMessage errorMessage : String) : PasswordOutcome :=
  match run.result with
  | .ok reply => { reply := reply, db := run.db, logs := run.logs }
  | .error _ =>
    { reply := { status := 500, body := .failure errorMessage none }, db := run.db,
      logs := run.logs ++ [{ level := .error, message := logMessage }] }

/-- The body `{ currentPassword, newPassword }` of `PUT /couple`. -/
structure CoupleChangeRequest where
  currentPassword : Option String
  newPassword : Option String
  deriving DecidableEq, Repr

/-- The `try` block of the `PUT /couple` handler (password.js lines 92-161). -/
def changeCouplePasswordTry (bcryptHash : BcryptHash) (bcryptCompare : BcryptCompare) (db : Db)
    (clock : Nat → Int) (req : CoupleChangeRequest) : PasswordRun :=
  if !truthy req.currentPassword || !truthy req.newPassword then
    { db := db, logs := [],
      result := .ok { status := 400, body := .failure "当前密码和新密码都不能为空" none } }
  else
    match db.get 0 "couple_password_hash" with
    | .error e => { db := db, logs := [], result := .error e }
    | .ok currentHash =>
      match truthyValue currentHash with
      | none =>
        { db := db, logs := [],
          result := .ok { status := 400, body := .failure "当前未设置密码" none } }
      | some currentHashValue =>
        let isCurrentValid :=
          verifyPassword bcryptCompare req.currentPassword (some currentHashValue)
        if !isCurrentValid then
          { db := db, logs := [{ level := .warn, message := "情侣密码修改失败 - 当前密码错误" }],
            result := .ok { status := 400, body := .failure "当前密码错误" none } }
        else
          let validation := validatePasswordStrength (req.newPassword.getD "")
          if !validation.isValid then
            { db := db, logs := [],
              result := .ok { status := 400,
                              body := .failure "新密码不符合要求" (some validation.errors) } }
          else
            match hashPassword bcryptHash req.newPassword with
            | .error e => { db := db, logs := [], result := .error e }
            | .ok newHash =>
              match db.upsertSetting 1 "couple_password_hash" newHash (isoOfTime (clock 0)) with
              | .error e => { db := db, logs := [], result := .error e }
              | .ok db1 =>
                match db1.insertHistory 2 "couple" newHash with
                | .error e => { db := db1, logs := [], result := .error e }
                | .ok db2 =>
                  { db := db2, logs := [{ level := .info, message := "情侣密码修改成功" }],
                    result := .ok { status := 200, body := .done "情侣密码修改成功" } }

/-- Embedding of the `PUT /couple` handler (password.js lines 91-169). -/
def changeCouplePassword (bcryptHash : BcryptHash) (bcryptCompare : BcryptCompare) (db : Db)
    (clock : Nat → Int) (req : CoupleChangeRequest) : PasswordOutcome :=
  (changeCouplePasswordTry bcryptHash bcryptCompare db clock req).finish
    "修改情侣密码失败:" "修改密码失败"

/-- Lines 203-245 and 269-307 of password.js, which the two visitor handlers
share: hash the password, compute the expiry from `Date.now()`, upsert the
digest, upsert the expiry, append to the history, and build the response with
`respond` from the ISO text of the expiry. -/
def storeVisitorCredential (bcryptHash : BcryptHash) (db : Db) (clock : Nat → Int)
    (password : String) (expiryHours : Int) (logMessage : String)
    (respond : String → PasswordBody) : PasswordRun :=
  match hashPassword bcryptHash (some password) with
  | .error e => { db := db, logs := [], result := .error e }
  | .ok hash =>
    let expiryTime := dateOfNumber (clock 0 + expiryHours * 60 * 60 * 1000)
    match db.upsertSetting 0 "visitor_password_hash" hash (isoOfTime (clock 1)) with
    | .error e => { db := db, logs := [], result := .error e }
    | .ok db1 =>
      -- the arguments of the second statement: `expiryTime.toISOString()` comes first
      match toISOString expiryTime with
      | .error e => { db := db1, logs := [], result := .error e }
      | .ok expiresAt =>
        match db1.upsertSetting 1 "visitor_password_expires" expiresAt (isoOfTime (clock 2)) with
        | .error e => { db := db1, logs := [], result := .error e }
        | .ok db2 =>
          match db2.insertHistory 2 "visitor" hash with
          | .error e => { db := db2, logs := [], result := .error e }
          | .ok db3 =>
            { db := db3, logs := [{ level := .info, message := logMessage }],
              result := .ok { status := 200, body := respond expiresAt } }

/-- The body `{ password, expiryHours = 24 }` of `PUT /visitor`. -/
structure VisitorSetRequest where
  password : Option String
  expiryHours : Option Int
  deriving DecidableEq, Repr

/-- The `try` block of the `PUT /visitor` handler (password.js lines 174-238). -/
def setVisitorPasswordTry (bcryptHash : BcryptHash) (db : Db) (clock : Nat → Int)
    (req : VisitorSetRequest) : PasswordRun :=
  let expiryHours : Int := req.expiryHours.getD 24
  if !truthy req.password then
    { db := db, logs := [],
      result := .ok { status := 400, body := .failure "访客密码不能为空" none } }
  else
    let password := req.password.getD ""
    let validation := validatePasswordStrength password
    if !validation.isValid then
      { db := db, logs := [],
        result := .ok { status := 400,
                        body := .failure "密码不符合要求" (some validation.errors) } }
    else if expiryHours < 1 || expiryHours > 168 then
      { db := db, logs := [],
        result := .ok { status := 400, body := .failure "有效期必须在1-168小时之间" none } }
    else
      storeVisitorCredential bcryptHash db clock password expiryHours "访客密码设置成功"
        (fun expiresAt => .visitorSet "访客密码设置成功" expiresAt expiryHours)

/-- Embedding of the `PUT /visitor` handler (password.js lines 172-246). -/
def setVisitorPassword (bcryptHash : BcryptHash) (db : Db) (clock : Nat → Int)
    (req : VisitorSetRequest) : PasswordOutcome :=
  (setVisitorPasswordTry bcryptHash db clock req).finish "设置访客密码失败:" "设置密码失败"

/-- The body `{ expiryHours = 24, length = 8 }` of `POST /visitor/generate`. -/
structure GenerateRequest where
  expiryHours : Option Int
  length : Option Int
  deriving DecidableEq, Repr

/-- The `try` block of the `POST /visitor/generate` handler (password.js lines
251-307). -/
def generateVisitorPasswordTry (bcryptHash : BcryptHash) (random : Nat → Nat) (db : Db)
    (clock : Nat → Int) (req : GenerateRequest) : PasswordRun :=
  let expiryHours : Int := req.expiryHours.getD 24
  let length : Int := req.length.getD 8
  if expiryHours < 1 || expiryHours > 168 then
    { db := db, logs := [],
      result := .ok { status := 400, body := .failure "有效期必须在1-168小时之间" none } }
  else if length < 6 || length > 20 then
    { db := db, logs := [],
      result := .ok { status := 400, body := .failure "密码长度必须在6-20字符之间" none } }
  else
    let randomPassword := generateRandomPassword random length.toNat
    storeVisitorCredential bcryptHash db clock randomPassword expiryHours "随机访客密码生成成功"
      (fun expiresAt => .generated "随机访客密码生成成功" randomPassword expiresAt expiryHours)

/-- Embedding of the `POST /visitor/generate` handler (password.js lines 249-315). -/
def generateVisitorPassword (bcryptHash : BcryptHash) (random : Nat → Nat) (db : Db)
    (clock : Nat → Int) (req : GenerateRequest) : PasswordOutcome :=
  (generateVisitorPasswordTry bcryptHash random db clock req).finish
    "生成随机访客密码失败:" "生成密码失败"

/-- The `try` block of the `DELETE /visitor` handler (password.js lines 319-332). -/
def revokeVisitorPasswordTry (db : Db) : PasswordRun :=
  match db.deleteSettings 0 ["visitor_password_hash", "visitor_password_expires"] with
  | .error e => { db := db, logs := [], result := .error e }
  | .ok db1 =>
    { db := db1, logs := [{ level := .info, message := "访客密码已撤销" }],
      result := .ok { status := 200, body := .done "访客密码已撤销" } }

/-- Embedding of the `DELETE /visitor` handler (password.js lines 318-340). -/
def revokeVisitorPassword (db : Db) : PasswordOutcome :=
  (revokeVisitorPasswordTry db).finish "撤销访客密码失败:" "撤销密码失败"

/-- One element `{ type, createdAt, displayName }` of the `history` array sent
by `GET /history`. -/
structure HistoryEntry where
  type : String
  createdAt : String
  displayName : String
  deriving DecidableEq, Repr

/-- The JSON bodies the `GET /history` handler sends. -/
inductive HistoryBody where
  /-- the body `{ success: false, error }` -/
  | failure (error : String)
  /-- the body `{ success: true, history }` -/
  | success (history : List HistoryEntry)
  deriving DecidableEq, Repr

/-- What one call of the `GET /history` handler did. -/
structure HistoryOutcome where
  status : Nat
  body : HistoryBody
  logs : List LogEntry
  deriving DecidableEq, Repr

/-- The callback of `history.map` (password.js lines 355-359). -/
def historyEntry (item : HistoryItem) : HistoryEntry :=
  { type := item.password_type,
    createdAt := item.created_at,
    displayName := if item.password_type = "couple" then "情侣密码" else "访客密码" }

/-- Embedding of the `GET /history` handler (password.js lines 343-367). -/
def passwordHistory (db : Db) : HistoryOutcome :=
  match db.recentHistory 0 with
  | .ok history =>
    { status := 200, body := .success (history.map historyEntry), logs := [] }
  | .error _ =>
    { status := 500, body := .failure "获取历史失败",
      logs := [{ level := .error, message := "获取密码历史失败:" }] }

/-! ## `GET /` of `src/api/routes/settings.js` -/

/-- The constant `publicSettings` of the handler (settings.js lines 24-30). -/
def publicSettings : List String :=
  ["love_start_date", "couple_name_1", "couple_name_2", "couple_avatar_1", "couple_avatar_2"]

/-- The constant `coupleOnlySettings` of the handler (settings.js lines 33-37). -/
def coupleOnlySettings : List String :=
  ["couple_password", "visitor_password", "visitor_password_expires"]

/-- The assignment `object[key] = value` on an object whose properties are
listed in insertion order: an existing property keeps its place and takes the
new value, a new property is added at the end. -/
def objectSet (object : List (String × String)) (key value : String) :
    List (String × String) :=
  if object.any (fun property => property.1 == key) then
    object.map (fun property => if property.1 == key then (key, value) else property)
  else object ++ [(key, value)]

/-- The JSON bodies the `GET /` handler of the settings sends. -/
inductive SettingsBody where
  /-- the body `{ success: false, error }` -/
  | failure (error : String)
  /-- the body `{ success: true, settings, userType }` -/
  | success (settings : List (String × String)) (userType : Option String)
  deriving DecidableEq, Repr

/-- What one call of the `GET /` handler of the settings did. -/
structure SettingsOutcome where
  status : Nat
  body : SettingsBody
  logs : List LogEntry
  deriving DecidableEq, Repr

/-- The body of the `for` loop of the handler (settings.js lines 39-48): one
row of the table is copied into `settings` or skipped. -/
def copySetting (userType : Option String) (settings : List (String × String))
    (setting : SettingRow) : List (String × String) :=
  if publicSettings.contains setting.key then
    objectSet settings setting.key setting.value
  else if userType == some "couple" && coupleOnlySettings.contains setting.key then
    objectSet settings setting.key setting.value
  else settings

/-- Embedding of the `GET /` handler of the settings (settings.js lines 11-66).
Reading `req.session.userType` on an undefined session raises inside the
`try`. -/
def getSettings (db : Db) (req : Request) : SettingsOutcome :=
  let failed : SettingsOutcome :=
    { status := 500, body := .failure "获取设置失败",
      logs := [{ level := .error, message := "获取设置时发生错误:" }] }
  match req.session with
  | none => failed
  | some session =>
    let userType := session.userType
    match db.allSettings 0 with
    | .error _ => failed
    | .ok allSettings =>
      let settings := allSettings.foldl (copySetting userType) []
      { status := 200, body := .success settings userType,
        logs := [{ level := .debug,
                   message := "向" ++ userType.getD "undefined" ++ "用户返回设置" }] }

/-! ## Vocabulary of the statements and sample inputs -/

/-- The entries of the `history` array of a response, none for a failure body. -/
def HistoryOutcome.entries (out : HistoryOutcome) : List HistoryEntry :=
  match out.body with
  | .success history => history
  | .failure _ => []

/-- The property names of the `settings` object of a response, none for a
failure body. -/
def SettingsOutcome.keys (out : SettingsOutcome) : List String :=
  match out.body with
  | .success settings _ => settings.map (fun property => property.1)
  | .failure _ => []

/-- The rule of the loop of the settings handler: a key is copied for a role
when it is a public key, or the role is couple and it is a couple-only key. -/
def settingVisibleTo (userType : Option String) (key : String) : Prop :=
  key ∈ publicSettings ∨ (userType = some "couple" ∧ key ∈ coupleOnlySettings)

/-- A table with twelve history rows, inserted in the order of their dates
except the first, and the settings of `liveVisitorDb` with public and
couple-only rows added. -/
def sampleHistoryDb : Db :=
  { settings :=
      [{ key := "love_start_date", value := "2020-02-14", updated_at := "" },
       { key := "couple_password_hash", value := "bcrypt:Secret123", updated_at := "" },
       { key := "visitor_password_hash", value := "bcrypt:guest-pass", updated_at := "" },
       { key := "visitor_password_expires", value := "2030-01-01T00:00:00.000Z",
         updated_at := "" },
       { key := "encryption_key", value := "0123456789abcdef", updated_at := "" },
       { key := "couple_name_1", value := "A", updated_at := "" }],
    history :=
      [{ password_type := "visitor", password_hash := "bcrypt:h13",
         created_at := "2024-01-13 10:00:00" },
       { password_type := "couple", password_hash := "bcrypt:h01",
         created_at := "2024-01-01 10:00:00" },
       { password_type := "visitor", password_hash := "bcrypt:h02",
         created_at := "2024-01-02 10:00:00" },
       { password_type := "visitor", password_hash := "bcrypt:h03",
         created_at := "2024-01-03 10:00:00" },
       { password_type := "visitor", password_hash := "bcrypt:h04",
         created_at := "2024-01-04 10:00:00" },
       { password_type := "couple", password_hash := "bcrypt:h05",
         created_at := "2024-01-05 10:00:00" },
       { password_type := "visitor", password_hash := "bcrypt:h06",
         created_at := "2024-01-06 10:00:00" },
       { password_type := "visitor", password_hash := "bcrypt:h07",
         created_at := "2024-01-07 10:00:00" },
       { password_type := "visitor", password_hash := "bcrypt:h08",
         created_at := "2024-01-08 10:00:00" },
       { password_type := "couple", password_hash := "bcrypt:h09",
         created_at := "2024-01-09 10:00:00" },
       { password_type := "visitor", password_hash := "bcrypt:h10",
         created_at := "2024-01-10 10:00:00" },
       { password_type := "visitor", password_hash := "bcrypt:h11",
         created_at := "2024-01-11 10:00:00" }] }

/-- The value stored under `key`, when a row with that key exists. -/
def storedValue (db : Db) (key : String) : Option String :=
  (db.settings.find? (fun r => r.key == key)).map (fun r => r.value)

/-- The stored visitor expiry: the non-empty value of `visitor_password_expires`. -/
def storedVisitorExpiry (db : Db) : Option String :=
  truthyValue (db.settings.find? (fun r => r.key == "visitor_password_expires"))

/-- The request carries a session that is marked authenticated. -/
def Request.isAuthenticated (req : Request) : Prop :=
  ∃ s, req.session = some s ∧ s.authenticated = true

/-- The request carries an authenticated session whose role is visitor. -/
def Request.isVisitor (req : Request) : Prop :=
  ∃ s, req.session = some s ∧ s.authenticated = true ∧ s.userType = some "visitor"

/-- A session that logged in as couple. -/
def coupleSession : Session :=
  { id := "sess-1", authenticated := true, userType := some "couple",
    loginTime := some "2023-11-14T22:13:20.000Z", expiryTime := none }

/-- A session that logged in as visitor. -/
def visitorSession : Session :=
  { id := "sess-2", authenticated := true, userType := some "visitor",
    loginTime := some "2023-11-14T22:13:20.000Z", expiryTime := some "2020-01-01T00:00:00.000Z" }

/-- A fresh session on which nobody has logged in. -/
def anonymousSession : Session :=
  { id := "sess-3", authenticated := false, userType := none, loginTime := none,
    expiryTime := none }

/-- A stand-in for `bcrypt.compare` on the sample digests below. -/
def sampleCompare : BcryptCompare :=
  fun plain hashed => .ok (hashed == "bcrypt:" ++ plain)

/-- The `Date` text parser on the two timestamps used in the samples. -/
def sampleDateParse : String → JsDate :=
  fun text =>
    if text = "2020-01-01T00:00:00.000Z" then some 1577836800000
    else if text = "2030-01-01T00:00:00.000Z" then some 1893456000000
    else none

/-- A clock that reads 2023-11-14T22:13:20.000Z at every call. -/
def sampleClock : Nat → Int :=
  fun _ => 1700000000000

/-- A settings table whose visitor credential expired on 2020-01-01. -/
def expiredVisitorDb : Db :=
  { settings :=
      [{ key := "couple_password_hash", value := "bcrypt:Secret123", updated_at := "" },
       { key := "visitor_password_hash", value := "bcrypt:guest-pass", updated_at := "" },
       { key := "visitor_password_expires", value := "2020-01-01T00:00:00.000Z",
         updated_at := "" }] }

/-- A settings table whose visitor credential is valid until 2030-01-01. -/
def liveVisitorDb : Db :=
  { settings :=
      [{ key := "couple_password_hash", value := "bcrypt:Secret123", updated_at := "" },
       { key := "visitor_password_hash", value := "bcrypt:guest-pass", updated_at := "" },
       { key := "visitor_password_expires", value := "2030-01-01T00:00:00.000Z",
         updated_at := "" }] }

/-- A settings table in which one digest is stored for both roles. -/
def sharedSecretDb : Db :=
  { settings :=
      [{ key := "couple_password_hash", value := "bcrypt:Secret123", updated_at := "" },
       { key := "visitor_password_hash", value := "bcrypt:Secret123", updated_at := "" }] }

/-- What the handlers rely on from the `bcrypt` package: hashing at the
configured cost resolves with a non-empty digest that is not the data itself,
and comparing the data against that digest resolves with true. -/
def BcryptContract (bcryptHash : BcryptHash) (bcryptCompare : BcryptCompare) : Prop :=
  ∀ data, ∃ digest, bcryptHash data SALT_ROUNDS = .ok digest ∧ digest ≠ "" ∧ digest ≠ data
    ∧ bcryptCompare data digest = .ok true

/-- The reading `now` of `Date.now()` is a valid time value that leaves room
for the longest visitor expiry (168 hours) within the range of `Date`. -/
def DateNowInRange (now : Int) : Prop :=
  -maxTimeValue ≤ now ∧ now + 168 * 3600000 ≤ maxTimeValue

/-- The database after the three writes of a visitor rotation: the digest
upserted with timestamp `updated1`, the expiry upserted with timestamp
`updated2`, and one visitor row appended to the history. -/
def Db.afterVisitorWrites (db : Db) (digest expiresAt updated1 updated2 : String) : Db :=
  let hashRow : SettingRow :=
    { key := "visitor_password_hash", value := digest, updated_at := updated1 }
  let expiryRow : SettingRow :=
    { key := "visitor_password_expires", value := expiresAt, updated_at := updated2 }
  let afterHash : List SettingRow :=
    db.settings.filter (fun r => !(r.key == "visitor_password_hash")) ++ [hashRow]
  { db with
    settings := afterHash.filter (fun r => !(r.key == "visitor_password_expires")) ++ [expiryRow],
    history := db.history
      ++ [{ password_type := "visitor", password_hash := digest,
            created_at := db.currentTimestamp }] }

/-- The sample table during a request whose third statement, the history
insert of a rotation, is rejected by the driver. -/
def historyFailingDb : Db :=
  { liveVisitorDb with failing := [2] }

/-- A stand-in for `bcrypt.hash`, matching `sampleCompare`. -/
def sampleHash : BcryptHash :=
  fun plain _ => .ok ("bcrypt:" ++ plain)

/-- A sample outcome of the random source. -/
def sampleRandom : Nat → Nat :=
  fun k => 7 * k + 3

/-! ## Theorems: the authorization gates -/

/-- C1, the code at the failing input: on an authenticated couple session
`requireCoupleAuth` answers 403 INSUFFICIENT_PERMISSIONS and never calls `next()`. -/
theorem requireCoupleAuth_rejects_couple :
    (requireCoupleAuth { session := some coupleSession, originalUrl := "/api/password/status" }).reply
        = some { status := 403, success := false, error := "访问不合法",
                 code := some "INSUFFICIENT_PERMISSIONS" }
      ∧ (requireCoupleAuth
          { session := some coupleSession, originalUrl := "/api/password/status" }).nextCalls = 0 := by
  decide

/-- C5: on an authenticated session whose role is not couple, `requireCoupleAuth`
answers 403 with code INSUFFICIENT_PERMISSIONS and does not call `next()`. -/
theorem requireCoupleAuth_forbids_other_roles (req : Request) (s : Session)
    (hs : req.session = some s) (ha : s.authenticated = true)
    (_hr : s.userType ≠ some "couple") :
    (∃ d, (requireCoupleAuth req).reply = some d ∧ d.status = 403
        ∧ d.code = some "INSUFFICIENT_PERMISSIONS")
      ∧ (requireCoupleAuth req).nextCalls = 0 := by
  simp [requireCoupleAuth, hs, ha, insufficientPermissions]

/-- Witness of C5 on the sample visitor session. -/
theorem requireCoupleAuth_forbids_other_roles_witness :
    (∃ d, (requireCoupleAuth { session := some visitorSession, originalUrl := "/api/posts" }).reply
          = some d ∧ d.status = 403 ∧ d.code = some "INSUFFICIENT_PERMISSIONS")
      ∧ (requireCoupleAuth { session := some visitorSession, originalUrl := "/api/posts" }).nextCalls
          = 0 :=
  requireCoupleAuth_forbids_other_roles
    { session := some visitorSession, originalUrl := "/api/posts" } visitorSession rfl rfl
    (by decide)

/-- C6: with no session, or with a session that is not authenticated,
`requireCoupleAuth` answers 401 with code AUTHENTICATION_REQUIRED, which is
neither status 403 nor code INSUFFICIENT_PERMISSIONS, and does not call `next()`. -/
theorem requireCoupleAuth_unauthenticated (req : Request)
    (h : req.session = none ∨ ∃ s, req.session = some s ∧ s.authenticated = false) :
    (∃ d, (requireCoupleAuth req).reply = some d ∧ d.status = 401
        ∧ d.code = some "AUTHENTICATION_REQUIRED" ∧ d.status ≠ 403
        ∧ d.code ≠ some "INSUFFICIENT_PERMISSIONS")
      ∧ (requireCoupleAuth req).nextCalls = 0 := by
  rcases h with h | ⟨s, hs, ha⟩
  · simp [requireCoupleAuth, h, authenticationRequired]
  · simp [requireCoupleAuth, hs, ha, authenticationRequired]

/-- Witness of C6 on a request without a session. -/
theorem requireCoupleAuth_unauthenticated_witness :
    (∃ d, (requireCoupleAuth { session := none, originalUrl := "/api/posts" }).reply = some d
        ∧ d.status = 401 ∧ d.code = some "AUTHENTICATION_REQUIRED" ∧ d.status ≠ 403
        ∧ d.code ≠ some "INSUFFICIENT_PERMISSIONS")
      ∧ (requireCoupleAuth { session := none, originalUrl := "/api/posts" }).nextCalls = 0 :=
  requireCoupleAuth_unauthenticated { session := none, originalUrl := "/api/posts" }
    (Or.inl rfl)

/-- C7: `requireAuth` calls `next()` (once, sending nothing) exactly when the
request has a session marked authenticated, whatever its role; in every other
case it answers 401 with code AUTHENTICATION_REQUIRED and does not call `next()`. -/
theorem requireAuth_passes_iff_authenticated (req : Request) :
    ((requireAuth req).nextCalls = 1 ↔ req.isAuthenticated)
      ∧ ((requireAuth req).nextCalls ≠ 0 ↔ req.isAuthenticated)
      ∧ (req.isAuthenticated → (requireAuth req).reply = none)
      ∧ (¬ req.isAuthenticated →
          (∃ d, (requireAuth req).reply = some d ∧ d.status = 401
            ∧ d.code = some "AUTHENTICATION_REQUIRED")
          ∧ (requireAuth req).nextCalls = 0) := by
  unfold Request.isAuthenticated
  cases hs : req.session with
  | none => simp [requireAuth, hs, authenticationRequired]
  | some s =>
    cases ha : s.authenticated <;> simp [requireAuth, hs, ha, authenticationRequired]

/-! ## Theorems: the visitor expiry check -/

/-- The `try` block of `checkVisitorExpiry` never returns a response: it either
runs to its end or raises. -/
theorem checkVisitorExpiryTry_never_returns (dateParse : String → JsDate) (db : Db)
    (o : Outcome) : checkVisitorExpiryTry dateParse db ≠ .ok (some o) := by
  unfold checkVisitorExpiryTry
  cases hget : db.get 0 "visitor_password_expires" with
  | error e => simp [bind, Except.bind]
  | ok result =>
    cases hval : truthyValue result with
    | none => simp [bind, Except.bind, hval, pure, Except.pure]
    | some value => simp [bind, Except.bind, hval, newData]

/-- Whatever it is given, `checkVisitorExpiry` calls `next()` once, sends no
response, and leaves the session in place. -/
theorem checkVisitorExpiry_always_passes (dateParse : String → JsDate) (db : Db)
    (req : Request) :
    (checkVisitorExpiry dateParse db req).nextCalls = 1
      ∧ (checkVisitorExpiry dateParse db req).reply = none
      ∧ (checkVisitorExpiry dateParse db req).destroyed = false
      ∧ (checkVisitorExpiry dateParse db req).session = req.session := by
  unfold checkVisitorExpiry
  cases hs : req.session with
  | none => simp [passThrough, hs]
  | some s =>
    simp only []
    split
    · cases htry : checkVisitorExpiryTry dateParse db with
      | error e => simp [passThrough, hs]
      | ok r =>
        cases r with
        | none => simp [passThrough, hs]
        | some o => exact absurd htry (checkVisitorExpiryTry_never_returns dateParse db o)
    · simp [passThrough, hs]

/-- C2, the code at the failing input: an authenticated visitor session, a
stored expiry of 2020-01-01, and a request made after that date.  The check
logs an error, calls `next()` once, sends no response and does not destroy
the session. -/
theorem checkVisitorExpiry_expired_visitor_passes :
    checkVisitorExpiry sampleDateParse expiredVisitorDb
        { session := some visitorSession, originalUrl := "/api/posts" }
      = { reply := none, nextCalls := 1, session := some visitorSession, destroyed := false,
          logs := [{ level := .error, message := "检查访客权限时出错" }] } := by
  decide

/-- C8: when the session is not an authenticated visitor session, or no visitor
expiry is stored, or the current time `now` is not later than the stored
expiry, `checkVisitorExpiry` calls `next()` exactly once, sends no response,
does not destroy the session and leaves it as it was. -/
theorem checkVisitorExpiry_noop (dateParse : String → JsDate) (db : Db) (req : Request)
    (now : Int)
    (_h : ¬ req.isVisitor ∨ storedVisitorExpiry db = none
      ∨ ∃ value, storedVisitorExpiry db = some value
          ∧ dateGt (some now) (dateParse value) = false) :
    (checkVisitorExpiry dateParse db req).nextCalls = 1
      ∧ (checkVisitorExpiry dateParse db req).reply = none
      ∧ (checkVisitorExpiry dateParse db req).destroyed = false
      ∧ (checkVisitorExpiry dateParse db req).session = req.session :=
  checkVisitorExpiry_always_passes dateParse db req

/-- Witness of C8: a visitor request made in 2023 under a credential valid
until 2030. -/
theorem checkVisitorExpiry_noop_witness :
    (∃ value, storedVisitorExpiry liveVisitorDb = some value
        ∧ dateGt (some 1700000000000) (sampleDateParse value) = false)
      ∧ (checkVisitorExpiry sampleDateParse liveVisitorDb
          { session := some visitorSession, originalUrl := "/api/posts" }).nextCalls = 1
      ∧ (checkVisitorExpiry sampleDateParse liveVisitorDb
          { session := some visitorSession, originalUrl := "/api/posts" }).reply = none :=
  have hw : ∃ value, storedVisitorExpiry liveVisitorDb = some value
      ∧ dateGt (some 1700000000000) (sampleDateParse value) = false :=
    ⟨"2030-01-01T00:00:00.000Z", by decide, by decide⟩
  have hc := checkVisitorExpiry_noop sampleDateParse liveVisitorDb
    { session := some visitorSession, originalUrl := "/api/posts" } 1700000000000
    (Or.inr (Or.inr hw))
  ⟨hw, hc.1, hc.2.1⟩

/-! ## Theorems: password strength -/

/-- A string has at least as many UTF-16 code units as characters. -/
theorem length_le_jsLength (s : String) : s.length ≤ jsLength s := by
  have key : ∀ l : List Char, l.length ≤ (l.map utf16Units).sum := by
    intro l
    induction l with
    | nil => simp
    | cons c cs ih =>
      have hc : 1 ≤ utf16Units c := by
        unfold utf16Units
        split <;> omega
      simp only [List.length_cons, List.map_cons, List.sum_cons]
      omega
  exact key s.data

/-- C10: on every string, `validatePasswordStrength` returns `isValid = true`
exactly when the JavaScript length of the string lies between 6 and 100
inclusive; the empty string and every string of 101 or more characters are
invalid. -/
theorem validatePasswordStrength_isValid_iff (password : String) :
    ((validatePasswordStrength password).isValid = true
        ↔ 6 ≤ jsLength password ∧ jsLength password ≤ 100)
      ∧ (validatePasswordStrength "").isValid = false
      ∧ (101 ≤ password.length → (validatePasswordStrength password).isValid = false) := by
  have hiff : (validatePasswordStrength password).isValid = true
      ↔ 6 ≤ jsLength password ∧ jsLength password ≤ 100 := by
    unfold validatePasswordStrength
    by_cases he : password = ""
    · subst he
      simp [truthy, jsLength]
    · by_cases h6 : jsLength password < 6 <;> by_cases h100 : jsLength password > 100
      all_goals simp [truthy, he, h6, h100]
      all_goals omega
  refine ⟨hiff, by decide, ?_⟩
  intro hlen
  have hl := length_le_jsLength password
  cases hv : (validatePasswordStrength password).isValid with
  | false => rfl
  | true =>
    have := hiff.mp hv
    omega

/-! ## Theorems: login -/

/-- The text produced by `toISOString` is never empty. -/
theorem isoOfTime_ne_empty (t : Int) : isoOfTime t ≠ "" := by
  intro h
  have hlen := congrArg String.length h
  simp [isoOfTime, String.length] at hlen

/-- A password that verifies is truthy, and so is the digest it verifies against. -/
theorem verifyPassword_truthy (bcryptCompare : BcryptCompare)
    (plainPassword hashedPassword : Option String)
    (h : verifyPassword bcryptCompare plainPassword hashedPassword = true) :
    truthy plainPassword = true ∧ truthy hashedPassword = true := by
  unfold verifyPassword at h
  cases hp : truthy plainPassword <;> cases hh : truthy hashedPassword <;> simp_all

/-- A truthy stored value is what the handler ends up using as the digest. -/
theorem truthyValue_getD_of_truthy (db : Db) (key : String)
    (h : truthy (storedValue db key) = true) :
    some ((truthyValue (db.settings.find? (fun r => r.key == key))).getD "")
      = storedValue db key := by
  unfold storedValue at *
  cases hf : db.settings.find? (fun r => r.key == key) with
  | none => simp [hf, truthy] at h
  | some r =>
    by_cases hr : r.value = ""
    · simp [hf, truthy, hr] at h
    · simp [truthyValue, hr]

/-- C3, the code at the failing input: a login on an anonymous session with
the visitor password, after the visitor credential expired.  The handler
answers 401, yet the session it leaves behind is marked authenticated with
role visitor. -/
theorem login_expired_visitor_marks_session :
    login sampleCompare sampleDateParse expiredVisitorDb sampleClock
        { password := some "guest-pass", session := some anonymousSession }
      = { reply := { status := 401, body := .failure "访客权限已过期" },
          session := some { id := "sess-3", authenticated := true, userType := some "visitor",
                            loginTime := some "2023-11-14T22:13:20.000Z", expiryTime := none },
          logs := [{ level := .info, message := "访客用户登录成功" }] } := by
  decide

/-- When the password verifies against the stored couple digest, lines 30-56
settle on couple without looking at the visitor digest. -/
theorem loginMatch_couple (bcryptCompare : BcryptCompare) (db : Db) (password : Option String)
    (visitorPasswordHash : String)
    (hc : verifyPassword bcryptCompare password (storedValue db "couple_password_hash") = true) :
    loginMatch bcryptCompare password
        ((truthyValue (db.settings.find? (fun r => r.key == "couple_password_hash"))).getD "")
        visitorPasswordHash
      = { userType := some "couple", loginSuccess := true,
          logs := [{ level := .info, message := "情侣用户登录成功" }] } := by
  have ht := (verifyPassword_truthy bcryptCompare _ _ hc).2
  have hget := truthyValue_getD_of_truthy db "couple_password_hash" ht
  unfold loginMatch
  rw [hget, ht, hc]
  simp

/-- C4: when the submitted password verifies against both the stored couple
digest and the stored visitor digest, login resolves to couple.  With a session
on the request and both digest reads answered, the response is the success
body with `user.type` couple and the session is marked authenticated with
`userType` couple; in every case the response never names visitor and the
session is never turned into a visitor session. -/
theorem login_prefers_couple (bcryptCompare : BcryptCompare) (dateParse : String → JsDate)
    (db : Db) (clock : Nat → Int) (req : LoginRequest)
    (hc : verifyPassword bcryptCompare req.password (storedValue db "couple_password_hash") = true)
    (_hv : verifyPassword bcryptCompare req.password (storedValue db "visitor_password_hash")
      = true) :
    (∀ s0, req.session = some s0 → 0 ∉ db.failing → 1 ∉ db.failing →
        (login bcryptCompare dateParse db clock req).reply
            = { status := 200,
                body := .success (some "couple") "情侣登录成功"
                  (if truthy s0.expiryTime then s0.expiryTime else none) }
          ∧ (login bcryptCompare dateParse db clock req).session
            = some { s0 with authenticated := true, userType := some "couple",
                             loginTime := some (isoOfTime (clock 0)) })
      ∧ (∀ message expiryTime, (login bcryptCompare dateParse db clock req).reply.body
            ≠ .success (some "visitor") message expiryTime)
      ∧ ((login bcryptCompare dateParse db clock req).session = req.session
          ∨ ∃ s1, (login bcryptCompare dateParse db clock req).session = some s1
              ∧ s1.userType = some "couple") := by
  have hp := (verifyPassword_truthy bcryptCompare _ _ hc).1
  have hm := fun v => loginMatch_couple bcryptCompare db req.password v hc
  by_cases h0 : 0 ∈ db.failing
  · simp [login, loginTry, hp, Db.get, h0]
  · by_cases h1 : 1 ∈ db.failing
    · simp [login, loginTry, hp, Db.get, h0, h1]
    · cases hs : req.session with
      | none => simp [login, loginTry, hp, Db.get, h0, h1, hm, loginEstablish, hs]
      | some s0 =>
        simp [login, loginTry, hp, Db.get, h0, h1, hm, loginEstablish, loginSuccessReply, hs]

/-- Witness of C4: one digest stored for both roles, and its password submitted
on an anonymous session. -/
theorem login_prefers_couple_witness :
    (login sampleCompare sampleDateParse sharedSecretDb sampleClock
        { password := some "Secret123", session := some anonymousSession }).reply
        = { status := 200, body := .success (some "couple") "情侣登录成功" none }
      ∧ (login sampleCompare sampleDateParse sharedSecretDb sampleClock
          { password := some "Secret123", session := some anonymousSession }).session
        = some { anonymousSession with authenticated := true, userType := some "couple",
                                       loginTime := some (isoOfTime (sampleClock 0)) } :=
  (login_prefers_couple sampleCompare sampleDateParse sharedSecretDb sampleClock
      { password := some "Secret123", session := some anonymousSession }
      (by decide) (by decide)).1 anonymousSession rfl (by decide) (by decide)

/-- A `try` block of the login handler that ends in a 200 response went
through lines 69-102. -/
theorem loginTry_ok_200 (bcryptCompare : BcryptCompare) (dateParse : String → JsDate) (db : Db)
    (clock : Nat → Int) (req : LoginRequest) (reply : LoginReply)
    (h : (loginTry bcryptCompare dateParse db clock req).result = .ok reply)
    (hstatus : reply.status = 200) :
    ∃ userType logs, loginTry bcryptCompare dateParse db clock req
      = loginEstablish dateParse db clock userType logs req.session := by
  unfold loginTry at h ⊢
  by_cases hp : truthy req.password = true
  · simp only [hp, Bool.not_true, Bool.false_eq_true, if_false] at h ⊢
    cases h0 : db.get 0 "couple_password_hash" with
    | error e => simp [h0] at h
    | ok couplePasswordResult =>
      cases h1 : db.get 1 "visitor_password_hash" with
      | error e => simp [h0, h1] at h
      | ok visitorPasswordResult =>
        simp only [h0, h1] at h ⊢
        split at h
        · simp only [Except.ok.injEq] at h
          subst h
          simp at hstatus
        · rename_i hm
          simp only [hm]
          exact ⟨_, _, rfl⟩
  · simp only [hp, Bool.not_false, if_true] at h
    simp only [Except.ok.injEq] at h
    subst h
    simp at hstatus

/-- Lines 69-102 answering with the success body for visitor while a visitor
expiry is stored: the stored text parses to a valid time, and the session
carries the login time and the ISO text of that time, which is also the
`expiryTime` of the response. -/
theorem loginEstablish_visitor_ok (dateParse : String → JsDate) (db : Db) (clock : Nat → Int)
    (userType : Option String) (logs : List LogEntry) (session : Option Session)
    (message : String) (expiry : Option String) (value : String)
    (h : (loginEstablish dateParse db clock userType logs session).result
      = .ok { status := 200, body := .success (some "visitor") message expiry })
    (hstored : storedVisitorExpiry db = some value) :
    ∃ t s1, dateParse value = some t
      ∧ (loginEstablish dateParse db clock userType logs session).session = some s1
      ∧ s1.authenticated = true ∧ s1.userType = some "visitor"
      ∧ s1.loginTime = some (isoOfTime (clock 0))
      ∧ s1.expiryTime = some (isoOfTime t)
      ∧ expiry = some (isoOfTime t) := by
  cases session with
  | none => simp [loginEstablish] at h
  | some s0 =>
    unfold loginEstablish at h ⊢
    by_cases hut : userType = some "visitor"
    · subst hut
      simp only [if_true] at h ⊢
      by_cases h2 : 2 ∈ db.failing
      · simp [Db.get, h2] at h
      · have hget : db.get 2 "visitor_password_expires"
            = .ok (db.settings.find? (fun r => r.key == "visitor_password_expires")) := by
          simp [Db.get, h2]
        unfold storedVisitorExpiry at hstored
        simp only [hget, hstored] at h ⊢
        cases hparse : dateParse value with
        | none => simp [hparse, dateGt, toISOString] at h
        | some t =>
          by_cases hgt : dateGt (some (clock 1)) (some t) = true
          · simp [hparse, hgt] at h
          · have hne := isoOfTime_ne_empty t
            simp only [hparse, hgt, toISOString, loginSuccessReply, truthy] at h ⊢
            simp [hne] at h
            refine ⟨t, _, rfl, rfl, rfl, rfl, rfl, rfl, ?_⟩
            exact h.2.symm
    · simp only [hut, if_false, loginSuccessReply] at h
      simp only [Except.ok.injEq, LoginReply.mk.injEq, LoginBody.success.injEq] at h
      exact absurd h.2.1 hut

/-- C9: when login answers with the success body for visitor while a visitor
expiry is stored, the stored text denotes a valid time `t`, the session is
marked authenticated as visitor with `loginTime` the ISO text of the clock
reading, and the `expiryTime` of the session and of the response are both the
ISO text of `t`; that text is the stored value itself whenever the stored
value is in ISO form. -/
theorem login_visitor_copies_expiry (bcryptCompare : BcryptCompare)
    (dateParse : String → JsDate) (db : Db) (clock : Nat → Int) (req : LoginRequest)
    (message : String) (expiry : Option String) (value : String)
    (hok : (login bcryptCompare dateParse db clock req).reply
      = { status := 200, body := .success (some "visitor") message expiry })
    (hstored : storedVisitorExpiry db = some value) :
    ∃ t s1, dateParse value = some t
      ∧ (login bcryptCompare dateParse db clock req).session = some s1
      ∧ s1.authenticated = true ∧ s1.userType = some "visitor"
      ∧ s1.loginTime = some (isoOfTime (clock 0))
      ∧ s1.expiryTime = some (isoOfTime t)
      ∧ expiry = some (isoOfTime t)
      ∧ (isoOfTime t = value → s1.expiryTime = some value ∧ expiry = some value) := by
  unfold login at hok ⊢
  cases hres : (loginTry bcryptCompare dateParse db clock req).result with
  | error e => simp [hres] at hok
  | ok reply =>
    simp only [hres] at hok ⊢
    subst hok
    obtain ⟨userType, logs, hrun⟩ :=
      loginTry_ok_200 bcryptCompare dateParse db clock req _ hres rfl
    rw [hrun] at hres ⊢
    obtain ⟨t, s1, hparse, hsess, hauth, hrole, hlogin, hexp, hreply⟩ :=
      loginEstablish_visitor_ok dateParse db clock userType logs req.session message expiry
        value hres hstored
    refine ⟨t, s1, hparse, hsess, hauth, hrole, hlogin, hexp, hreply, ?_⟩
    intro hiso
    rw [hexp, hreply, hiso]
    exact ⟨rfl, rfl⟩

/-- Witness of C9: the visitor password submitted in 2023 under a credential
valid until 2030-01-01. -/
theorem login_visitor_copies_expiry_witness :
    ∃ t s1, sampleDateParse "2030-01-01T00:00:00.000Z" = some t
      ∧ (login sampleCompare sampleDateParse liveVisitorDb sampleClock
          { password := some "guest-pass", session := some anonymousSession }).session = some s1
      ∧ s1.authenticated = true ∧ s1.userType = some "visitor"
      ∧ s1.loginTime = some (isoOfTime (sampleClock 0))
      ∧ s1.expiryTime = some (isoOfTime t)
      ∧ some "2030-01-01T00:00:00.000Z" = some (isoOfTime t)
      ∧ (isoOfTime t = "2030-01-01T00:00:00.000Z" →
          s1.expiryTime = some "2030-01-01T00:00:00.000Z"
            ∧ some "2030-01-01T00:00:00.000Z" = some "2030-01-01T00:00:00.000Z") :=
  login_visitor_copies_expiry sampleCompare sampleDateParse liveVisitorDb sampleClock
    { password := some "guest-pass", session := some anonymousSession }
    "访客登录成功" (some "2030-01-01T00:00:00.000Z") "2030-01-01T00:00:00.000Z"
    (by decide) (by decide)

/-! ## Theorems: `crypto.js` -/

/-- C11, counterexample: the empty string breaks the rule of at least 6
characters, yet the errors returned for it do not contain the message of that
rule. -/
theorem validatePasswordStrength_empty_omits_length_error :
    jsLength "" < 6 ∧ "密码长度至少6个字符" ∉ (validatePasswordStrength "").errors := by
  decide

/-- C11, amended: on the empty string `validatePasswordStrength` returns at
once with the single message that the password must not be empty; on every
non-empty string the errors are exactly the messages of the length rules the
string breaks (at least 6, at most 100 characters), in that order, none
omitted. -/
theorem validatePasswordStrength_errors (password : String) :
    (validatePasswordStrength "").errors = ["密码不能为空"]
      ∧ (password ≠ "" →
          (validatePasswordStrength password).errors
              = (if jsLength password < 6 then ["密码长度至少6个字符"] else [])
                ++ (if jsLength password > 100 then ["密码长度不能超过100个字符"] else [])
            ∧ (jsLength password < 6 →
                "密码长度至少6个字符" ∈ (validatePasswordStrength password).errors)
            ∧ (jsLength password > 100 →
                "密码长度不能超过100个字符" ∈ (validatePasswordStrength password).errors)) := by
  refine ⟨by decide, ?_⟩
  intro hne
  have herr : (validatePasswordStrength password).errors
      = (if jsLength password < 6 then ["密码长度至少6个字符"] else [])
        ++ (if jsLength password > 100 then ["密码长度不能超过100个字符"] else []) := by
    unfold validatePasswordStrength
    by_cases h6 : jsLength password < 6 <;> by_cases h100 : jsLength password > 100 <;>
      simp [truthy, hne, h6, h100]
  refine ⟨herr, ?_, ?_⟩
  · intro h6
    rw [herr]
    simp [h6]
  · intro h100
    rw [herr]
    simp [h100]

/-- The stand-ins `sampleHash` and `sampleCompare` meet the contract of the
`bcrypt` package. -/
theorem sample_bcrypt_contract : BcryptContract sampleHash sampleCompare := by
  intro data
  refine ⟨"bcrypt:" ++ data, rfl, ?_, ?_, ?_⟩
  · intro h
    have hlen := congrArg String.length h
    simp only [String.length_append] at hlen
    have h7 : "bcrypt:".length = 7 := by decide
    have h0 : "".length = 0 := by decide
    omega
  · intro h
    have hlen := congrArg String.length h
    simp only [String.length_append] at hlen
    have h7 : "bcrypt:".length = 7 := by decide
    omega
  · simp [sampleCompare]

/-- C12: for every non-empty secret, under the contract of the `bcrypt`
package, `hashPassword` returns the digest that `bcrypt.hash` gives at cost
12, and `verifyPassword` accepts the secret against that digest. -/
theorem verifyPassword_hashPassword (bcryptHash : BcryptHash) (bcryptCompare : BcryptCompare)
    (secret : String) (hne : secret ≠ "")
    (hlib : BcryptContract bcryptHash bcryptCompare) :
    ∃ digest, bcryptHash secret 12 = .ok digest
      ∧ hashPassword bcryptHash (some secret) = .ok digest
      ∧ verifyPassword bcryptCompare (some secret) (some digest) = true := by
  obtain ⟨digest, hhash, hd, _, hcmp⟩ := hlib secret
  refine ⟨digest, hhash, ?_, ?_⟩
  · have hlen : ¬ jsLength secret < 1 := by
      have hl := length_le_jsLength secret
      have : secret.length ≠ 0 := by
        intro h0
        apply hne
        have hd0 : secret.data = [] := List.length_eq_zero.mp h0
        cases secret
        simp_all
      omega
    simp [hashPassword, truthy, hne, hlen, hhash]
  · simp [verifyPassword, truthy, hne, hd, hcmp]

/-- Witness of C12 on the secret `Secret123` with the sample stand-ins. -/
theorem verifyPassword_hashPassword_witness :
    ∃ digest, sampleHash "Secret123" 12 = .ok digest
      ∧ hashPassword sampleHash (some "Secret123") = .ok digest
      ∧ verifyPassword sampleCompare (some "Secret123") (some digest) = true :=
  verifyPassword_hashPassword sampleHash sampleCompare "Secret123" (by decide)
    sample_bcrypt_contract

/-- C13: `verifyPassword` never raises: the promise it returns always resolves
with a boolean, the one `verifyPassword` denotes; that boolean is false when
the secret or the digest is missing or empty, and when `bcrypt.compare`
rejects. -/
theorem verifyPassword_never_throws (bcryptCompare : BcryptCompare)
    (plainPassword hashedPassword : Option String) :
    verifyPasswordPromise bcryptCompare plainPassword hashedPassword
        = .ok (verifyPassword bcryptCompare plainPassword hashedPassword)
      ∧ (truthy plainPassword = false ∨ truthy hashedPassword = false →
          verifyPassword bcryptCompare plainPassword hashedPassword = false)
      ∧ (∀ plain hashed e, plainPassword = some plain → hashedPassword = some hashed →
          bcryptCompare plain hashed = .error e →
          verifyPassword bcryptCompare plainPassword hashedPassword = false) := by
  refine ⟨?_, ?_, ?_⟩
  · unfold verifyPasswordPromise verifyPasswordTry verifyPassword
    by_cases hg : (!truthy plainPassword || !truthy hashedPassword) = true
    · simp [hg]
    · simp only [hg]
      cases plainPassword <;> cases hashedPassword <;> simp
      rename_i plain hashed
      cases bcryptCompare plain hashed <;> simp
  · intro h
    unfold verifyPassword
    rcases h with h | h <;> simp [h]
  · intro plain hashed e hp hh hcmp
    subst hp hh
    unfold verifyPassword
    split
    · rfl
    · simp [hcmp]

/-- Every draw of the loop of `generateRandomPassword` appends exactly one
character of the alphabet. -/
theorem charAt_charset_randomInt (random : Nat → Nat) (k : Nat) :
    ∃ c, c ∈ charset.data
      ∧ charAt charset (randomInt random k (jsLength charset)) = String.singleton c := by
  have hlen : jsLength charset = 70 := by decide
  have hdata : charset.data.length = 70 := by decide
  have hlt : randomInt random k (jsLength charset) < charset.data.length := by
    rw [hlen, hdata]
    unfold randomInt
    exact Nat.mod_lt _ (by decide)
  refine ⟨charset.data[randomInt random k (jsLength charset)], List.getElem_mem _, ?_⟩
  unfold charAt
  rw [List.getElem?_eq_getElem hlt]

/-- One more round of the loop appends one more drawn character. -/
theorem generateRandomPassword_succ (random : Nat → Nat) (n : Nat) :
    generateRandomPassword random (n + 1)
      = generateRandomPassword random n
        ++ charAt charset (randomInt random n (jsLength charset)) := by
  unfold generateRandomPassword
  rw [List.range_succ, List.foldl_append]
  rfl

/-- The characters of a generated password: as many as requested, all from
the alphabet. -/
theorem generateRandomPassword_data (random : Nat → Nat) (n : Nat) :
    (generateRandomPassword random n).data.length = n
      ∧ ∀ c ∈ (generateRandomPassword random n).data, c ∈ charset.data := by
  induction n with
  | zero => exact ⟨rfl, by intro c hc; simp [generateRandomPassword] at hc⟩
  | succ n ih =>
    obtain ⟨c, hc, hchar⟩ := charAt_charset_randomInt random n
    rw [generateRandomPassword_succ, hchar]
    constructor
    · simp [String.data_append, String.singleton, ih.1]
    · intro x hx
      simp only [String.data_append, String.singleton, List.mem_append] at hx
      rcases hx with hx | hx
      · exact ih.2 x hx
      · simp at hx
        rw [hx]
        exact hc

/-- The JavaScript length of a string made of characters of the alphabet is
its number of characters. -/
theorem jsLength_of_charset (s : String) (h : ∀ c ∈ s.data, c ∈ charset.data) :
    jsLength s = s.data.length := by
  have hunit : ∀ c ∈ charset.data, utf16Units c = 1 := by decide
  have key : ∀ l : List Char, (∀ c ∈ l, c ∈ charset.data) → (l.map utf16Units).sum = l.length := by
    intro l
    induction l with
    | nil => intro _; rfl
    | cons c cs ih =>
      intro hl
      have hc := hunit c (hl c (List.mem_cons_self _ _))
      have hcs := ih (fun x hx => hl x (List.mem_cons_of_mem _ hx))
      simp only [List.map_cons, List.sum_cons, List.length_cons, hc, hcs]
      omega
  exact key s.data h

/-- C14: for every natural number `n` and every outcome of the random source,
`generateRandomPassword` returns a string of exactly `n` characters (and of
JavaScript length `n`), each from the alphabet, which consists of 70 distinct
characters; no bound on `n` is applied. -/
theorem generateRandomPassword_length_alphabet (random : Nat → Nat) (n : Nat) :
    (generateRandomPassword random n).length = n
      ∧ jsLength (generateRandomPassword random n) = n
      ∧ (∀ c ∈ (generateRandomPassword random n).data, c ∈ charset.data)
      ∧ charset.data.length = 70 ∧ charset.data.Nodup
      ∧ charset.data = "abcdefghijklmnopqrstuvwxyz".data ++ "ABCDEFGHIJKLMNOPQRSTUVWXYZ".data
          ++ "0123456789".data ++ "!@#$%^&*".data := by
  have hd := generateRandomPassword_data random n
  refine ⟨hd.1, ?_, hd.2, by decide, by decide, by decide⟩
  rw [jsLength_of_charset _ hd.2]
  exact hd.1

/-! ## Theorems: the settings table under writes -/

/-- After an upsert, a lookup of the upserted key finds the new row. -/
theorem find?_upsert_same (rows : List SettingRow) (row : SettingRow) :
    (rows.filter (fun r => !(r.key == row.key)) ++ [row]).find? (fun r => r.key == row.key)
      = some row := by
  induction rows with
  | nil => simp
  | cons r rs ih =>
    by_cases hr : r.key = row.key
    · simp [List.filter_cons, hr]
    · simp [List.filter_cons, hr]

/-- After an upsert, a lookup of any other key finds what it found before. -/
theorem find?_upsert_other (rows : List SettingRow) (row : SettingRow) (other : String)
    (h : other ≠ row.key) :
    (rows.filter (fun r => !(r.key == row.key)) ++ [row]).find? (fun r => r.key == other)
      = rows.find? (fun r => r.key == other) := by
  induction rows with
  | nil => simp [Ne.symm h]
  | cons r rs ih =>
    by_cases hr : r.key = row.key
    · have hro : ¬ r.key = other := by
        rw [hr]
        exact Ne.symm h
      have hdrop : (!(r.key == row.key)) = false := by simp [hr]
      rw [List.filter_cons, hdrop, List.find?_cons_of_neg _ (by simpa using hro)]
      simpa using ih
    · have hkeep : (!(r.key == row.key)) = true := by simp [hr]
      rw [List.filter_cons, hkeep]
      simp only [if_true, List.cons_append]
      by_cases hro : r.key = other
      · rw [List.find?_cons_of_pos _ (by simpa using hro),
          List.find?_cons_of_pos _ (by simpa using hro)]
      · rw [List.find?_cons_of_neg _ (by simpa using hro),
          List.find?_cons_of_neg _ (by simpa using hro)]
        exact ih

/-- After a deletion by key list, a lookup of a listed key finds nothing. -/
theorem find?_delete_listed (rows : List SettingRow) (keys : List String) (key : String)
    (h : key ∈ keys) :
    (rows.filter (fun r => !(keys.contains r.key))).find? (fun r => r.key == key) = none := by
  rw [List.find?_eq_none]
  intro r hr
  rw [List.mem_filter] at hr
  intro hk
  have hkey : r.key = key := by simpa using hk
  have hnot : r.key ∉ keys := by simpa using hr.2
  exact hnot (hkey ▸ h)

/-- After a deletion by key list, the rows of any other key are what they were. -/
theorem filter_delete_other (rows : List SettingRow) (keys : List String) (key : String)
    (h : key ∉ keys) :
    (rows.filter (fun r => !(keys.contains r.key))).filter (fun r => r.key == key)
      = rows.filter (fun r => r.key == key) := by
  rw [List.filter_filter]
  apply List.filter_congr
  intro r _
  by_cases hk : r.key = key
  · subst hk
    simp [h]
  · simp [hk]

/-- The visitor digest stored after the writes of a visitor rotation. -/
theorem storedValue_afterVisitorWrites_hash (db : Db) (digest expiresAt updated1 updated2 : String) :
    storedValue (db.afterVisitorWrites digest expiresAt updated1 updated2) "visitor_password_hash"
      = some digest := by
  unfold storedValue Db.afterVisitorWrites
  simp only []
  rw [find?_upsert_other _ ⟨"visitor_password_expires", _, _⟩ _
      (show "visitor_password_hash" ≠ "visitor_password_expires" by decide),
    find?_upsert_same _ ⟨"visitor_password_hash", _, _⟩]
  rfl

/-- The visitor expiry stored after the writes of a visitor rotation. -/
theorem storedValue_afterVisitorWrites_expires (db : Db)
    (digest expiresAt updated1 updated2 : String) :
    storedValue (db.afterVisitorWrites digest expiresAt updated1 updated2)
        "visitor_password_expires"
      = some expiresAt := by
  unfold storedValue Db.afterVisitorWrites
  simp only []
  rw [find?_upsert_same _ ⟨"visitor_password_expires", _, _⟩]
  rfl

/-- The writes of a visitor rotation leave every other key as it was. -/
theorem storedValue_afterVisitorWrites_other (db : Db)
    (digest expiresAt updated1 updated2 key : String)
    (h1 : key ≠ "visitor_password_hash") (h2 : key ≠ "visitor_password_expires") :
    storedValue (db.afterVisitorWrites digest expiresAt updated1 updated2) key
      = storedValue db key := by
  unfold storedValue Db.afterVisitorWrites
  simp only []
  rw [find?_upsert_other _ ⟨"visitor_password_expires", _, _⟩ _ h2,
    find?_upsert_other _ ⟨"visitor_password_hash", _, _⟩ _ h1]

/-! ## Theorems: the password handlers -/

/-- On a non-empty password `hashPassword` returns what `bcrypt.hash` returns
at the configured cost. -/
theorem hashPassword_ok (bcryptHash : BcryptHash) (password digest : String)
    (hne : password ≠ "") (hhash : bcryptHash password SALT_ROUNDS = .ok digest) :
    hashPassword bcryptHash (some password) = .ok digest := by
  have hlen : ¬ jsLength password < 1 := by
    have hl := length_le_jsLength password
    have : password.length ≠ 0 := by
      intro h0
      apply hne
      have hd0 : password.data = [] := List.length_eq_zero.mp h0
      cases password
      simp_all
    omega
  simp [hashPassword, truthy, hne, hlen, hhash]

/-- The expiry computed from an in-range reading of `Date.now()` and a number
of hours between 1 and 168 is a valid date. -/
theorem dateOfNumber_expiry (now expiryHours : Int) (hnow : DateNowInRange now)
    (hh : 1 ≤ expiryHours ∧ expiryHours ≤ 168) :
    dateOfNumber (now + expiryHours * 60 * 60 * 1000) = some (now + expiryHours * 3600000) := by
  unfold DateNowInRange maxTimeValue at hnow
  have heq : now + expiryHours * 60 * 60 * 1000 = now + expiryHours * 3600000 := by omega
  unfold dateOfNumber maxTimeValue
  rw [heq, if_pos]
  constructor <;> omega

/-- The shared tail of the visitor handlers when hashing and all three
statements succeed: the three writes are made and the response is sent. -/
theorem storeVisitorCredential_ok (bcryptHash : BcryptHash) (db : Db) (clock : Nat → Int)
    (password : String) (expiryHours : Int) (logMessage : String)
    (respond : String → PasswordBody) (digest : String)
    (hne : password ≠ "") (hhash : bcryptHash password SALT_ROUNDS = .ok digest)
    (hh : 1 ≤ expiryHours ∧ expiryHours ≤ 168) (hnow : DateNowInRange (clock 0))
    (h0 : 0 ∉ db.failing) (h1 : 1 ∉ db.failing) (h2 : 2 ∉ db.failing) :
    storeVisitorCredential bcryptHash db clock password expiryHours logMessage respond
      = { db := db.afterVisitorWrites digest (isoOfTime (clock 0 + expiryHours * 3600000))
                  (isoOfTime (clock 1)) (isoOfTime (clock 2)),
          logs := [{ level := .info, message := logMessage }],
          result := .ok { status := 200,
                          body := respond (isoOfTime (clock 0 + expiryHours * 3600000)) } } := by
  unfold storeVisitorCredential
  rw [hashPassword_ok bcryptHash password digest hne hhash]
  simp only [dateOfNumber_expiry (clock 0) expiryHours hnow hh, toISOString]
  simp [Db.upsertSetting, Db.insertHistory, h0, h1, h2, Db.afterVisitorWrites]

/-- The shared tail of the visitor handlers when hashing and both upserts
succeed and the history insert is rejected: the two upserts stay, the history
is as before, and the exception reaches the `catch`. -/
theorem storeVisitorCredential_history_fails (bcryptHash : BcryptHash) (db : Db)
    (clock : Nat → Int) (password : String) (expiryHours : Int) (logMessage : String)
    (respond : String → PasswordBody) (digest : String)
    (hne : password ≠ "") (hhash : bcryptHash password SALT_ROUNDS = .ok digest)
    (hh : 1 ≤ expiryHours ∧ expiryHours ≤ 168) (hnow : DateNowInRange (clock 0))
    (h0 : 0 ∉ db.failing) (h1 : 1 ∉ db.failing) (h2 : 2 ∈ db.failing) :
    ∃ e, storeVisitorCredential bcryptHash db clock password expiryHours logMessage respond
      = { db := { db.afterVisitorWrites digest (isoOfTime (clock 0 + expiryHours * 3600000))
                    (isoOfTime (clock 1)) (isoOfTime (clock 2)) with history := db.history },
          logs := [],
          result := .error e } := by
  refine ⟨.dbError "database statement failed", ?_⟩
  unfold storeVisitorCredential
  rw [hashPassword_ok bcryptHash password digest hne hhash]
  simp only [dateOfNumber_expiry (clock 0) expiryHours hnow hh, toISOString]
  simp [Db.upsertSetting, Db.insertHistory, h0, h1, h2, Db.afterVisitorWrites]

/-- A string of JavaScript length at least 1 is not the empty string. -/
theorem ne_empty_of_jsLength_pos (password : String) (h : 1 ≤ jsLength password) :
    password ≠ "" := by
  intro he
  subst he
  exact absurd h (by decide)

/-- A password whose JavaScript length lies between 6 and 100 passes
`validatePasswordStrength`; any other does not. -/
theorem isValid_eq_true_iff (password : String) :
    (validatePasswordStrength password).isValid = true
      ↔ 6 ≤ jsLength password ∧ jsLength password ≤ 100 := by
  unfold validatePasswordStrength
  by_cases he : password = ""
  · subst he
    simp [truthy, jsLength]
  · by_cases h6 : jsLength password < 6 <;> by_cases h100 : jsLength password > 100
    all_goals simp [truthy, he, h6, h100]
    all_goals omega

/-- The ISO text of a time is never a generated password: it contains a
hyphen, which is not in the alphabet. -/
theorem isoOfTime_ne_generated (t : Int) (random : Nat → Nat) (n : Nat) :
    isoOfTime t ≠ generateRandomPassword random n := by
  intro h
  have hmem : '-' ∈ (isoOfTime t).data := by
    simp [isoOfTime]
  rw [h] at hmem
  have hin := (generateRandomPassword_data random n).2 '-' hmem
  exact absurd hin (by decide)

/-- C16: for every password of JavaScript length 6 to 100 and every
`expiryHours` from 1 to 168, when hashing and the three statements succeed and
`Date.now()` reads an in-range time, the `PUT /visitor` handler answers 200 and
leaves a database in which the visitor digest is the new digest, the visitor
expiry is the ISO text of the reading plus `expiryHours * 3600000`
milliseconds, the history has gained exactly one visitor row holding the new
digest, and the couple digest is what it was. -/
theorem setVisitorPassword_stores_credential (bcryptHash : BcryptHash) (db : Db)
    (clock : Nat → Int) (password : String) (expiryHours : Int) (digest : String)
    (hp : 6 ≤ jsLength password ∧ jsLength password ≤ 100)
    (hh : 1 ≤ expiryHours ∧ expiryHours ≤ 168)
    (hhash : bcryptHash password SALT_ROUNDS = .ok digest)
    (hdb : 0 ∉ db.failing ∧ 1 ∉ db.failing ∧ 2 ∉ db.failing)
    (hnow : DateNowInRange (clock 0)) :
    (setVisitorPassword bcryptHash db clock
        { password := some password, expiryHours := some expiryHours }).reply
        = { status := 200,
            body := .visitorSet "访客密码设置成功"
              (isoOfTime (clock 0 + expiryHours * 3600000)) expiryHours }
      ∧ storedValue (setVisitorPassword bcryptHash db clock
          { password := some password, expiryHours := some expiryHours }).db
          "visitor_password_hash" = some digest
      ∧ storedValue (setVisitorPassword bcryptHash db clock
          { password := some password, expiryHours := some expiryHours }).db
          "visitor_password_expires" = some (isoOfTime (clock 0 + expiryHours * 3600000))
      ∧ (setVisitorPassword bcryptHash db clock
          { password := some password, expiryHours := some expiryHours }).db.history
          = db.history ++ [{ password_type := "visitor", password_hash := digest,
                             created_at := db.currentTimestamp }]
      ∧ storedValue (setVisitorPassword bcryptHash db clock
          { password := some password, expiryHours := some expiryHours }).db
          "couple_password_hash" = storedValue db "couple_password_hash" := by
  have hne : password ≠ "" := ne_empty_of_jsLength_pos password (by omega)
  have hvalid := (isValid_eq_true_iff password).mpr hp
  have hrange : ¬ (expiryHours < 1 ∨ 168 < expiryHours) := by omega
  have hout : setVisitorPassword bcryptHash db clock
        { password := some password, expiryHours := some expiryHours }
      = { reply := { status := 200,
                     body := .visitorSet "访客密码设置成功"
                       (isoOfTime (clock 0 + expiryHours * 3600000)) expiryHours },
          db := db.afterVisitorWrites digest (isoOfTime (clock 0 + expiryHours * 3600000))
                  (isoOfTime (clock 1)) (isoOfTime (clock 2)),
          logs := [{ level := .info, message := "访客密码设置成功" }] } := by
    unfold setVisitorPassword setVisitorPasswordTry
    simp only [Option.getD_some, truthy, bne_iff_ne, ne_eq, hne, not_false_eq_true,
      decide_True, Bool.not_true, Bool.false_eq_true, if_false, hvalid, Bool.or_eq_true,
      decide_eq_true_eq, gt_iff_lt, hrange]
    rw [storeVisitorCredential_ok bcryptHash db clock password expiryHours _ _ digest hne hhash
      hh hnow hdb.1 hdb.2.1 hdb.2.2]
    simp [hne, PasswordRun.finish]
  rw [hout]
  refine ⟨rfl, storedValue_afterVisitorWrites_hash _ _ _ _ _,
    storedValue_afterVisitorWrites_expires _ _ _ _ _, rfl,
    storedValue_afterVisitorWrites_other _ _ _ _ _ _ (by decide) (by decide)⟩

/-- Witness of C16: the password `guest2` set for 168 hours on the sample
table at 2023-11-14T22:13:20Z. -/
theorem setVisitorPassword_stores_credential_witness :
    (setVisitorPassword sampleHash liveVisitorDb sampleClock
        { password := some "guest2", expiryHours := some 168 }).reply
        = { status := 200,
            body := .visitorSet "访客密码设置成功"
              (isoOfTime (sampleClock 0 + 168 * 3600000)) 168 }
      ∧ storedValue (setVisitorPassword sampleHash liveVisitorDb sampleClock
          { password := some "guest2", expiryHours := some 168 }).db
          "visitor_password_hash" = some "bcrypt:guest2"
      ∧ storedValue (setVisitorPassword sampleHash liveVisitorDb sampleClock
          { password := some "guest2", expiryHours := some 168 }).db
          "visitor_password_expires" = some (isoOfTime (sampleClock 0 + 168 * 3600000))
      ∧ (setVisitorPassword sampleHash liveVisitorDb sampleClock
          { password := some "guest2", expiryHours := some 168 }).db.history
          = liveVisitorDb.history ++ [{ password_type := "visitor", password_hash := "bcrypt:guest2",
                                        created_at := liveVisitorDb.currentTimestamp }]
      ∧ storedValue (setVisitorPassword sampleHash liveVisitorDb sampleClock
          { password := some "guest2", expiryHours := some 168 }).db
          "couple_password_hash" = storedValue liveVisitorDb "couple_password_hash" :=
  setVisitorPassword_stores_credential sampleHash liveVisitorDb sampleClock "guest2" 168
    "bcrypt:guest2" (by decide) (by decide) rfl (by decide)
    (by unfold DateNowInRange; decide)

/-- C15: for every `expiryHours` from 1 to 168 and every `length` from 6 to
20, under the contract of the `bcrypt` package, with the three statements
succeeding and `Date.now()` reading an in-range time, the
`POST /visitor/generate` handler answers 200 with a plaintext password of
exactly `length` characters; the visitor digest it stores is the digest of that
plaintext, so the plaintext verifies against the stored digest; and what it
writes to the settings and to the history are that digest and ISO timestamps,
none of which is the plaintext. -/
theorem generateVisitorPassword_returns_plaintext (bcryptHash : BcryptHash)
    (bcryptCompare : BcryptCompare) (random : Nat → Nat) (db : Db) (clock : Nat → Int)
    (expiryHours length : Int)
    (hh : 1 ≤ expiryHours ∧ expiryHours ≤ 168) (hl : 6 ≤ length ∧ length ≤ 20)
    (hlib : BcryptContract bcryptHash bcryptCompare)
    (hdb : 0 ∉ db.failing ∧ 1 ∉ db.failing ∧ 2 ∉ db.failing)
    (hnow : DateNowInRange (clock 0)) :
    ∃ password digest,
      generateVisitorPassword bcryptHash random db clock
          { expiryHours := some expiryHours, length := some length }
        = { reply := { status := 200,
                       body := .generated "随机访客密码生成成功" password
                         (isoOfTime (clock 0 + expiryHours * 3600000)) expiryHours },
            db := db.afterVisitorWrites digest (isoOfTime (clock 0 + expiryHours * 3600000))
                    (isoOfTime (clock 1)) (isoOfTime (clock 2)),
            logs := [{ level := .info, message := "随机访客密码生成成功" }] }
      ∧ (password.length : Int) = length ∧ (jsLength password : Int) = length
      ∧ hashPassword bcryptHash (some password) = .ok digest
      ∧ storedValue (generateVisitorPassword bcryptHash random db clock
          { expiryHours := some expiryHours, length := some length }).db
          "visitor_password_hash" = some digest
      ∧ verifyPassword bcryptCompare (some password)
          (storedValue (generateVisitorPassword bcryptHash random db clock
            { expiryHours := some expiryHours, length := some length }).db
            "visitor_password_hash") = true
      ∧ digest ≠ password
      ∧ isoOfTime (clock 0 + expiryHours * 3600000) ≠ password
      ∧ isoOfTime (clock 1) ≠ password ∧ isoOfTime (clock 2) ≠ password := by
  obtain ⟨digest, hhash, hd, hdp, hcmp⟩ := hlib (generateRandomPassword random length.toNat)
  have hlen := generateRandomPassword_data random length.toNat
  have hjs := jsLength_of_charset _ hlen.2
  have hne : generateRandomPassword random length.toNat ≠ "" :=
    ne_empty_of_jsLength_pos _ (by rw [hjs, hlen.1]; omega)
  have hrange : ¬ (expiryHours < 1 ∨ 168 < expiryHours) := by omega
  have hlrange : ¬ (length < 6 ∨ 20 < length) := by omega
  have hout : generateVisitorPassword bcryptHash random db clock
        { expiryHours := some expiryHours, length := some length }
      = { reply := { status := 200,
                     body := .generated "随机访客密码生成成功"
                       (generateRandomPassword random length.toNat)
                       (isoOfTime (clock 0 + expiryHours * 3600000)) expiryHours },
          db := db.afterVisitorWrites digest (isoOfTime (clock 0 + expiryHours * 3600000))
                  (isoOfTime (clock 1)) (isoOfTime (clock 2)),
          logs := [{ level := .info, message := "随机访客密码生成成功" }] } := by
    unfold generateVisitorPassword generateVisitorPasswordTry
    simp only [Option.getD_some, Bool.or_eq_true, decide_eq_true_eq, gt_iff_lt, hrange,
      hlrange, if_false]
    rw [storeVisitorCredential_ok bcryptHash db clock _ expiryHours _ _ digest hne hhash
      hh hnow hdb.1 hdb.2.1 hdb.2.2]
    simp [PasswordRun.finish]
  refine ⟨generateRandomPassword random length.toNat, digest, hout, ?_, ?_,
    hashPassword_ok bcryptHash _ digest hne hhash, ?_, ?_, hdp, ?_, ?_, ?_⟩
  · have : (generateRandomPassword random length.toNat).length = length.toNat := hlen.1
    omega
  · rw [hjs, hlen.1]
    omega
  · rw [hout]
    exact storedValue_afterVisitorWrites_hash _ _ _ _ _
  · rw [hout]
    simp only []
    rw [storedValue_afterVisitorWrites_hash]
    simp [verifyPassword, truthy, hne, hd, hcmp]
  · exact isoOfTime_ne_generated _ _ _
  · exact isoOfTime_ne_generated _ _ _
  · exact isoOfTime_ne_generated _ _ _

/-- Witness of C15: one hour and ten characters on the sample table, with the
sample stand-ins and the sample outcome of the random source. -/
theorem generateVisitorPassword_returns_plaintext_witness :
    ∃ password digest,
      generateVisitorPassword sampleHash sampleRandom liveVisitorDb sampleClock
          { expiryHours := some 1, length := some 10 }
        = { reply := { status := 200,
                       body := .generated "随机访客密码生成成功" password
                         (isoOfTime (sampleClock 0 + 1 * 3600000)) 1 },
            db := liveVisitorDb.afterVisitorWrites digest
                    (isoOfTime (sampleClock 0 + 1 * 3600000))
                    (isoOfTime (sampleClock 1)) (isoOfTime (sampleClock 2)),
            logs := [{ level := .info, message := "随机访客密码生成成功" }] }
      ∧ (password.length : Int) = 10 ∧ (jsLength password : Int) = 10
      ∧ hashPassword sampleHash (some password) = .ok digest
      ∧ storedValue (generateVisitorPassword sampleHash sampleRandom liveVisitorDb sampleClock
          { expiryHours := some 1, length := some 10 }).db
          "visitor_password_hash" = some digest
      ∧ verifyPassword sampleCompare (some password)
          (storedValue (generateVisitorPassword sampleHash sampleRandom liveVisitorDb sampleClock
            { expiryHours := some 1, length := some 10 }).db
            "visitor_password_hash") = true
      ∧ digest ≠ password
      ∧ isoOfTime (sampleClock 0 + 1 * 3600000) ≠ password
      ∧ isoOfTime (sampleClock 1) ≠ password ∧ isoOfTime (sampleClock 2) ≠ password :=
  generateVisitorPassword_returns_plaintext sampleHash sampleCompare sampleRandom liveVisitorDb
    sampleClock 1 10 (by decide) (by decide) sample_bcrypt_contract (by decide)
    (by unfold DateNowInRange; decide)

/-- C17: a `PUT /visitor` request whose `expiryHours` is below 1 or above 168
is answered 400 and leaves the database (settings and history) as it was; so
is a `POST /visitor/generate` request whose `expiryHours` is below 1 or above
168, or whose `length` is below 6 or above 20. -/
theorem visitor_handlers_reject_out_of_range (bcryptHash : BcryptHash) (random : Nat → Nat)
    (db : Db) (clock : Nat → Int) :
    (∀ (req : VisitorSetRequest) (expiryHours : Int), req.expiryHours = some expiryHours →
        expiryHours < 1 ∨ 168 < expiryHours →
        (setVisitorPassword bcryptHash db clock req).reply.status = 400
          ∧ (setVisitorPassword bcryptHash db clock req).db = db)
      ∧ (∀ (req : GenerateRequest),
          (∃ expiryHours, req.expiryHours = some expiryHours
              ∧ (expiryHours < 1 ∨ 168 < expiryHours))
            ∨ (∃ length, req.length = some length ∧ (length < 6 ∨ 20 < length)) →
          (generateVisitorPassword bcryptHash random db clock req).reply.status = 400
            ∧ (generateVisitorPassword bcryptHash random db clock req).db = db) := by
  constructor
  · intro req expiryHours hreq hrange
    unfold setVisitorPassword setVisitorPasswordTry
    simp only [hreq, Option.getD_some]
    by_cases hp : (!truthy req.password) = true
    · simp [hp, PasswordRun.finish]
    · by_cases hv : (!(validatePasswordStrength (req.password.getD "")).isValid) = true
      · simp [hp, hv, PasswordRun.finish]
      · simp [hp, hv, hrange, PasswordRun.finish]
  · intro req hreq
    unfold generateVisitorPassword generateVisitorPasswordTry
    by_cases hh : req.expiryHours.getD 24 < 1 ∨ 168 < req.expiryHours.getD 24
    · simp [hh, PasswordRun.finish]
    · rcases hreq with ⟨expiryHours, he, hrange⟩ | ⟨length, hl, hrange⟩
      · rw [he] at hh
        exact absurd hrange hh
      · simp [hh, hl, hrange, PasswordRun.finish]

/-- After a deletion by key list, a lookup of any other key finds what it
found before. -/
theorem find?_delete_other (rows : List SettingRow) (keys : List String) (key : String)
    (h : key ∉ keys) :
    (rows.filter (fun r => !(keys.contains r.key))).find? (fun r => r.key == key)
      = rows.find? (fun r => r.key == key) := by
  induction rows with
  | nil => rfl
  | cons r rs ih =>
    by_cases hk : r.key = key
    · have hkeep : (!(keys.contains r.key)) = true := by
        rw [hk]
        simpa using h
      rw [List.filter_cons, hkeep]
      simp only [if_true]
      rw [List.find?_cons_of_pos _ (by simpa using hk),
        List.find?_cons_of_pos _ (by simpa using hk)]
    · rw [List.find?_cons_of_neg _ (by simpa using hk), List.filter_cons]
      split
      · rw [List.find?_cons_of_neg _ (by simpa using hk)]
        exact ih
      · exact ih

/-- C18: when its statement is carried out the `DELETE /visitor` handler
answers 200 and leaves a settings table with no row for
`visitor_password_hash` and none for `visitor_password_expires`, while the
rows and the stored value of every other key, and the history, are what they
were; when the statement is rejected it answers 500 and the database is
untouched, so the two keys never part; and it answers 200 only in the first
case. -/
theorem revokeVisitorPassword_removes_both (db : Db) :
    (0 ∉ db.failing →
        (revokeVisitorPassword db).reply = { status := 200, body := .done "访客密码已撤销" }
          ∧ storedValue (revokeVisitorPassword db).db "visitor_password_hash" = none
          ∧ storedValue (revokeVisitorPassword db).db "visitor_password_expires" = none
          ∧ (∀ r ∈ (revokeVisitorPassword db).db.settings,
              r.key ≠ "visitor_password_hash" ∧ r.key ≠ "visitor_password_expires")
          ∧ (∀ key, key ≠ "visitor_password_hash" → key ≠ "visitor_password_expires" →
              (revokeVisitorPassword db).db.settings.filter (fun r => r.key == key)
                  = db.settings.filter (fun r => r.key == key)
                ∧ storedValue (revokeVisitorPassword db).db key = storedValue db key)
          ∧ (revokeVisitorPassword db).db.history = db.history)
      ∧ (0 ∈ db.failing →
          (revokeVisitorPassword db).reply.status = 500 ∧ (revokeVisitorPassword db).db = db)
      ∧ ((revokeVisitorPassword db).reply.status = 200 ↔ 0 ∉ db.failing) := by
  have hfail : 0 ∈ db.failing →
      (revokeVisitorPassword db).reply.status = 500 ∧ (revokeVisitorPassword db).db = db := by
    intro h0
    simp [revokeVisitorPassword, revokeVisitorPasswordTry, Db.deleteSettings, h0,
      PasswordRun.finish]
  have hok : 0 ∉ db.failing →
      revokeVisitorPassword db
        = { reply := { status := 200, body := .done "访客密码已撤销" },
            db := { db with
                    settings := (db.settings.filter (fun r =>
                      !(["visitor_password_hash", "visitor_password_expires"].contains r.key))) },
            logs := [{ level := .info, message := "访客密码已撤销" }] } := by
    intro h0
    simp [revokeVisitorPassword, revokeVisitorPasswordTry, Db.deleteSettings, h0,
      PasswordRun.finish]
  refine ⟨?_, hfail, ?_⟩
  · intro h0
    rw [hok h0]
    refine ⟨rfl, ?_, ?_, ?_, ?_, rfl⟩
    · unfold storedValue
      simp only []
      rw [find?_delete_listed _ _ _ (by decide)]
      rfl
    · unfold storedValue
      simp only []
      rw [find?_delete_listed _ _ _ (by decide)]
      rfl
    · intro r hr
      simp only [List.mem_filter] at hr
      have hnot : r.key ∉ ["visitor_password_hash", "visitor_password_expires"] := by
        simpa using hr.2
      constructor
      · intro hk
        exact hnot (by simp [hk])
      · intro hk
        exact hnot (by simp [hk])
    · intro key h1 h2
      have hnot : key ∉ ["visitor_password_hash", "visitor_password_expires"] := by
        simp [h1, h2]
      constructor
      · exact filter_delete_other _ _ _ hnot
      · unfold storedValue
        simp only []
        rw [find?_delete_other _ _ _ hnot]
  · constructor
    · intro hstatus
      intro h0
      have := (hfail h0).1
      omega
    · intro h0
      rw [hok h0]

/-- The non-empty value the handler reads under a key is the stored value. -/
theorem storedValue_of_truthyValue (db : Db) (key value : String)
    (h : truthyValue (db.settings.find? (fun r => r.key == key)) = some value) :
    storedValue db key = some value := by
  unfold storedValue
  cases hf : db.settings.find? (fun r => r.key == key) with
  | none => simp [hf, truthyValue] at h
  | some r =>
    by_cases hr : r.value = ""
    · simp [hf, truthyValue, hr] at h
    · simp only [hf, truthyValue, hr, if_false, Option.some.injEq] at h
      simp [h]

/-- When the handler reads no non-empty value under a key, the stored value is
not truthy. -/
theorem storedValue_of_truthyValue_none (db : Db) (key : String)
    (h : truthyValue (db.settings.find? (fun r => r.key == key)) = none) :
    truthy (storedValue db key) = false := by
  unfold storedValue
  cases hf : db.settings.find? (fun r => r.key == key) with
  | none => rfl
  | some r =>
    by_cases hr : r.value = ""
    · simp [truthy, hr]
    · simp [hf, truthyValue, hr] at h

/-- The `PUT /couple` handler when the current password verifies, the new one
is valid, and hashing gives `digest`: what the two write statements do decides
the rest. -/
theorem changeCouplePasswordTry_rotates (bcryptHash : BcryptHash)
    (bcryptCompare : BcryptCompare) (db : Db) (clock : Nat → Int) (req : CoupleChangeRequest)
    (digest : String)
    (hverify : verifyPassword bcryptCompare req.currentPassword
      (storedValue db "couple_password_hash") = true)
    (hvalid : (validatePasswordStrength (req.newPassword.getD "")).isValid = true)
    (hhash : bcryptHash (req.newPassword.getD "") SALT_ROUNDS = .ok digest)
    (h0 : 0 ∉ db.failing) :
    changeCouplePasswordTry bcryptHash bcryptCompare db clock req
      = match db.upsertSetting 1 "couple_password_hash" digest (isoOfTime (clock 0)) with
        | .error e => { db := db, logs := [], result := .error e }
        | .ok db1 =>
          match db1.insertHistory 2 "couple" digest with
          | .error e => { db := db1, logs := [], result := .error e }
          | .ok db2 =>
            { db := db2, logs := [{ level := .info, message := "情侣密码修改成功" }],
              result := .ok { status := 200, body := .done "情侣密码修改成功" } } := by
  obtain ⟨hcur, hstored⟩ := verifyPassword_truthy bcryptCompare _ _ hverify
  have hnew : req.newPassword.getD "" ≠ "" := by
    intro he
    rw [he] at hvalid
    exact absurd hvalid (by decide)
  have hnewt : truthy req.newPassword = true := by
    cases hn : req.newPassword with
    | none => simp [hn] at hnew
    | some np =>
      simp only [hn, Option.getD_some] at hnew
      simp [truthy, hnew]
  have hsome : req.newPassword = some (req.newPassword.getD "") := by
    cases hn : req.newPassword with
    | none => simp [hn, truthy] at hnewt
    | some np => rfl
  unfold changeCouplePasswordTry
  cases hval : truthyValue (db.settings.find? (fun r => r.key == "couple_password_hash")) with
  | none =>
    have := storedValue_of_truthyValue_none db _ hval
    rw [this] at hstored
    exact absurd hstored (by decide)
  | some value =>
    have hsv := storedValue_of_truthyValue db _ value hval
    rw [hsv] at hverify
    have hhp : hashPassword bcryptHash req.newPassword = .ok digest := by
      rw [hsome]
      exact hashPassword_ok bcryptHash _ digest hnew hhash
    simp [hcur, hnewt, Db.get, h0, hval, hverify, hvalid, hhp]

/-- C19: the `PUT /couple` handler re-verifies before rotating.  When
`currentPassword` does not verify against the stored couple digest, or no
couple digest is stored, or `newPassword` fails `validatePasswordStrength`,
the database (settings and history) is left as it was and the answer is 400
(500 only when the read of the digest is itself rejected); the stored couple
digest differs afterwards only if the current password verified and the new
one is valid; and when both hold, hashing gives a digest and the statements
succeed, the answer is 200, the stored couple digest is the new digest and
one couple row holding it is appended to the history. -/
theorem changeCouplePassword_reverifies (bcryptHash : BcryptHash)
    (bcryptCompare : BcryptCompare) (db : Db) (clock : Nat → Int) (req : CoupleChangeRequest) :
    (verifyPassword bcryptCompare req.currentPassword (storedValue db "couple_password_hash")
          = false
        ∨ truthy (storedValue db "couple_password_hash") = false
        ∨ (validatePasswordStrength (req.newPassword.getD "")).isValid = false →
        (changeCouplePassword bcryptHash bcryptCompare db clock req).db = db
          ∧ ((changeCouplePassword bcryptHash bcryptCompare db clock req).reply.status = 400
              ∨ (0 ∈ db.failing
                  ∧ (changeCouplePassword bcryptHash bcryptCompare db clock req).reply.status
                      = 500))
          ∧ (0 ∉ db.failing →
              (changeCouplePassword bcryptHash bcryptCompare db clock req).reply.status = 400))
      ∧ (storedValue (changeCouplePassword bcryptHash bcryptCompare db clock req).db
            "couple_password_hash" ≠ storedValue db "couple_password_hash" →
          verifyPassword bcryptCompare req.currentPassword
              (storedValue db "couple_password_hash") = true
            ∧ (validatePasswordStrength (req.newPassword.getD "")).isValid = true)
      ∧ (∀ digest,
          verifyPassword bcryptCompare req.currentPassword
              (storedValue db "couple_password_hash") = true →
          (validatePasswordStrength (req.newPassword.getD "")).isValid = true →
          bcryptHash (req.newPassword.getD "") SALT_ROUNDS = .ok digest →
          0 ∉ db.failing → 1 ∉ db.failing → 2 ∉ db.failing →
          (changeCouplePassword bcryptHash bcryptCompare db clock req).reply
              = { status := 200, body := .done "情侣密码修改成功" }
            ∧ storedValue (changeCouplePassword bcryptHash bcryptCompare db clock req).db
                "couple_password_hash" = some digest
            ∧ (changeCouplePassword bcryptHash bcryptCompare db clock req).db.history
                = db.history ++ [{ password_type := "couple", password_hash := digest,
                                   created_at := db.currentTimestamp }]) := by
  have hrefuse : verifyPassword bcryptCompare req.currentPassword
          (storedValue db "couple_password_hash") = false
        ∨ truthy (storedValue db "couple_password_hash") = false
        ∨ (validatePasswordStrength (req.newPassword.getD "")).isValid = false →
      (changeCouplePassword bcryptHash bcryptCompare db clock req).db = db
        ∧ ((changeCouplePassword bcryptHash bcryptCompare db clock req).reply.status = 400
            ∨ (0 ∈ db.failing
                ∧ (changeCouplePassword bcryptHash bcryptCompare db clock req).reply.status
                    = 500))
        ∧ (0 ∉ db.failing →
            (changeCouplePassword bcryptHash bcryptCompare db clock req).reply.status = 400) := by
    intro hcase
    have hcase2 : verifyPassword bcryptCompare req.currentPassword
          (storedValue db "couple_password_hash") = false
        ∨ (validatePasswordStrength (req.newPassword.getD "")).isValid = false := by
      rcases hcase with h | h | h
      · exact Or.inl h
      · left
        cases hv : verifyPassword bcryptCompare req.currentPassword
            (storedValue db "couple_password_hash") with
        | false => rfl
        | true =>
          have := (verifyPassword_truthy bcryptCompare _ _ hv).2
          rw [h] at this
          exact absurd this (by decide)
      · exact Or.inr h
    unfold changeCouplePassword changeCouplePasswordTry
    by_cases hguard : (!truthy req.currentPassword || !truthy req.newPassword) = true
    · simp [hguard, PasswordRun.finish]
    · by_cases h0 : 0 ∈ db.failing
      · simp [hguard, Db.get, h0, PasswordRun.finish]
      · cases hval : truthyValue
            (db.settings.find? (fun r => r.key == "couple_password_hash")) with
        | none => simp [hguard, Db.get, h0, hval, PasswordRun.finish]
        | some value =>
          have hsv := storedValue_of_truthyValue db _ value hval
          rw [hsv] at hcase2
          by_cases hver : verifyPassword bcryptCompare req.currentPassword (some value) = true
          · have hinv : (validatePasswordStrength (req.newPassword.getD "")).isValid = false := by
              rcases hcase2 with h | h
              · rw [hver] at h
                exact absurd h (by decide)
              · exact h
            simp [hguard, Db.get, h0, hval, hver, hinv, PasswordRun.finish]
          · simp [hguard, Db.get, h0, hval, hver, PasswordRun.finish]
  refine ⟨hrefuse, ?_, ?_⟩
  · intro hchanged
    cases hv : verifyPassword bcryptCompare req.currentPassword
        (storedValue db "couple_password_hash") with
    | false =>
      have := (hrefuse (Or.inl hv)).1
      rw [this] at hchanged
      exact absurd rfl hchanged
    | true =>
      cases hvalid : (validatePasswordStrength (req.newPassword.getD "")).isValid with
      | false =>
        have := (hrefuse (Or.inr (Or.inr hvalid))).1
        rw [this] at hchanged
        exact absurd rfl hchanged
      | true => simp
  · intro digest hverify hvalid hhash h0 h1 h2
    unfold changeCouplePassword
    rw [changeCouplePasswordTry_rotates bcryptHash bcryptCompare db clock req digest hverify
      hvalid hhash h0]
    simp only [Db.upsertSetting, h1, if_false, Db.insertHistory, h2, PasswordRun.finish]
    refine ⟨trivial, ?_, trivial⟩
    unfold storedValue
    simp only []
    rw [find?_upsert_same _ ⟨"couple_password_hash", _, _⟩]
    rfl

/-- C20, counterexample: a couple rotation and a visitor rotation whose
settings statements succeed and whose history insert is rejected.  Each
handler keeps the new digest in the settings table but answers 500 with its
failure body instead of reporting success. -/
theorem rotation_history_failure_answers_500 :
    (changeCouplePassword sampleHash sampleCompare historyFailingDb sampleClock
        { currentPassword := some "Secret123", newPassword := some "NewSecret" }).reply
        = { status := 500, body := .failure "修改密码失败" none }
      ∧ storedValue (changeCouplePassword sampleHash sampleCompare historyFailingDb sampleClock
          { currentPassword := some "Secret123", newPassword := some "NewSecret" }).db
          "couple_password_hash" = some "bcrypt:NewSecret"
      ∧ (setVisitorPassword sampleHash historyFailingDb sampleClock
          { password := some "guest2", expiryHours := some 24 }).reply
        = { status := 500, body := .failure "设置密码失败" none }
      ∧ storedValue (setVisitorPassword sampleHash historyFailingDb sampleClock
          { password := some "guest2", expiryHours := some 24 }).db
          "visitor_password_hash" = some "bcrypt:guest2" := by
  decide

/-- C20, amended: in a rotation whose settings statements succeed and whose
history insert is rejected, the credential update stays in the settings table
and the history is as before, but the failure is surfaced: the handler
answers 500 with its failure body.  This holds for the `PUT /couple` handler
(current password verified, new password valid, hashing done) and for the
`PUT /visitor` handler (valid password, `expiryHours` from 1 to 168, hashing
done, in-range clock). -/
theorem rotation_history_failure_surfaces (bcryptHash : BcryptHash)
    (bcryptCompare : BcryptCompare) (db : Db) (clock : Nat → Int)
    (hsettings : 0 ∉ db.failing ∧ 1 ∉ db.failing) (hhistory : 2 ∈ db.failing) :
    (∀ (req : CoupleChangeRequest) (digest : String),
        verifyPassword bcryptCompare req.currentPassword
            (storedValue db "couple_password_hash") = true →
        (validatePasswordStrength (req.newPassword.getD "")).isValid = true →
        bcryptHash (req.newPassword.getD "") SALT_ROUNDS = .ok digest →
        (changeCouplePassword bcryptHash bcryptCompare db clock req).reply
            = { status := 500, body := .failure "修改密码失败" none }
          ∧ storedValue (changeCouplePassword bcryptHash bcryptCompare db clock req).db
              "couple_password_hash" = some digest
          ∧ (changeCouplePassword bcryptHash bcryptCompare db clock req).db.history = db.history)
      ∧ (∀ (password : String) (expiryHours : Int) (digest : String),
          6 ≤ jsLength password ∧ jsLength password ≤ 100 →
          1 ≤ expiryHours ∧ expiryHours ≤ 168 →
          bcryptHash password SALT_ROUNDS = .ok digest →
          DateNowInRange (clock 0) →
          (setVisitorPassword bcryptHash db clock
              { password := some password, expiryHours := some expiryHours }).reply
              = { status := 500, body := .failure "设置密码失败" none }
            ∧ storedValue (setVisitorPassword bcryptHash db clock
                { password := some password, expiryHours := some expiryHours }).db
                "visitor_password_hash" = some digest
            ∧ storedValue (setVisitorPassword bcryptHash db clock
                { password := some password, expiryHours := some expiryHours }).db
                "visitor_password_expires" = some (isoOfTime (clock 0 + expiryHours * 3600000))
            ∧ (setVisitorPassword bcryptHash db clock
                { password := some password, expiryHours := some expiryHours }).db.history
                = db.history) := by
  constructor
  · intro req digest hverify hvalid hhash
    unfold changeCouplePassword
    rw [changeCouplePasswordTry_rotates bcryptHash bcryptCompare db clock req digest hverify
      hvalid hhash hsettings.1]
    simp only [Db.upsertSetting, hsettings.2, if_false, Db.insertHistory, hhistory, if_true,
      PasswordRun.finish]
    refine ⟨trivial, ?_, trivial⟩
    unfold storedValue
    simp only []
    rw [find?_upsert_same _ ⟨"couple_password_hash", _, _⟩]
    rfl
  · intro password expiryHours digest hp hh hhash hnow
    have hne : password ≠ "" := ne_empty_of_jsLength_pos password (by omega)
    have hvalid := (isValid_eq_true_iff password).mpr hp
    have hrange : ¬ (expiryHours < 1 ∨ 168 < expiryHours) := by omega
    obtain ⟨e, hrun⟩ := storeVisitorCredential_history_fails bcryptHash db clock password
      expiryHours "访客密码设置成功"
      (fun expiresAt => .visitorSet "访客密码设置成功" expiresAt expiryHours) digest hne hhash hh
      hnow hsettings.1 hsettings.2 hhistory
    have hout : setVisitorPassword bcryptHash db clock
          { password := some password, expiryHours := some expiryHours }
        = { reply := { status := 500, body := .failure "设置密码失败" none },
            db := { db.afterVisitorWrites digest (isoOfTime (clock 0 + expiryHours * 3600000))
                      (isoOfTime (clock 1)) (isoOfTime (clock 2)) with history := db.history },
            logs := [{ level := .error, message := "设置访客密码失败:" }] } := by
      unfold setVisitorPassword setVisitorPasswordTry
      simp only [Option.getD_some, hvalid, Bool.not_true, Bool.false_eq_true, if_false,
        Bool.or_eq_true, decide_eq_true_eq, gt_iff_lt, hrange]
      rw [hrun]
      simp [truthy, hne, PasswordRun.finish]
    rw [hout]
    refine ⟨rfl, ?_, ?_, rfl⟩
    · exact storedValue_afterVisitorWrites_hash db _ _ _ _
    · exact storedValue_afterVisitorWrites_expires db _ _ _ _

/-- Witness of C20 as amended: the couple rotation on the sample table whose
history insert is rejected. -/
theorem rotation_history_failure_surfaces_witness :
    (changeCouplePassword sampleHash sampleCompare historyFailingDb sampleClock
        { currentPassword := some "Secret123", newPassword := some "NewSecret" }).reply
        = { status := 500, body := .failure "修改密码失败" none }
      ∧ storedValue (changeCouplePassword sampleHash sampleCompare historyFailingDb sampleClock
          { currentPassword := some "Secret123", newPassword := some "NewSecret" }).db
          "couple_password_hash" = some "bcrypt:NewSecret"
      ∧ (changeCouplePassword sampleHash sampleCompare historyFailingDb sampleClock
          { currentPassword := some "Secret123", newPassword := some "NewSecret" }).db.history
        = historyFailingDb.history :=
  (rotation_history_failure_surfaces sampleHash sampleCompare historyFailingDb sampleClock
      (by decide) (by decide)).1
    { currentPassword := some "Secret123", newPassword := some "NewSecret" } "bcrypt:NewSecret"
    (by decide) (by decide) rfl

/-- Witness of C17: zero hours on `PUT /visitor`, and twenty-one characters on
`POST /visitor/generate`, against the sample table. -/
theorem visitor_handlers_reject_out_of_range_witness :
    ((setVisitorPassword sampleHash liveVisitorDb sampleClock
          { password := some "guest2", expiryHours := some 0 }).reply.status = 400
        ∧ (setVisitorPassword sampleHash liveVisitorDb sampleClock
          { password := some "guest2", expiryHours := some 0 }).db = liveVisitorDb)
      ∧ (generateVisitorPassword sampleHash sampleRandom liveVisitorDb sampleClock
          { expiryHours := some 5, length := some 21 }).reply.status = 400
      ∧ (generateVisitorPassword sampleHash sampleRandom liveVisitorDb sampleClock
          { expiryHours := some 5, length := some 21 }).db = liveVisitorDb :=
  have h := visitor_handlers_reject_out_of_range sampleHash sampleRandom liveVisitorDb sampleClock
  ⟨h.1 { password := some "guest2", expiryHours := some 0 } 0 rfl (Or.inl (by decide)),
    h.2 { expiryHours := some 5, length := some 21 } (Or.inr ⟨21, rfl, Or.inr (by decide)⟩)⟩

/-- Witness of C18: the revocation carried out on the sample table. -/
theorem revokeVisitorPassword_removes_both_witness :
    (revokeVisitorPassword liveVisitorDb).reply
        = { status := 200, body := .done "访客密码已撤销" }
      ∧ storedValue (revokeVisitorPassword liveVisitorDb).db "visitor_password_hash" = none
      ∧ storedValue (revokeVisitorPassword liveVisitorDb).db "visitor_password_expires" = none
      ∧ storedValue (revokeVisitorPassword liveVisitorDb).db "couple_password_hash"
          = storedValue liveVisitorDb "couple_password_hash"
      ∧ (revokeVisitorPassword liveVisitorDb).db.history = liveVisitorDb.history :=
  have h := (revokeVisitorPassword_removes_both liveVisitorDb).1 (by decide)
  ⟨h.1, h.2.1, h.2.2.1,
    (h.2.2.2.2.1 "couple_password_hash" (by decide) (by decide)).2, h.2.2.2.2.2⟩

/-- Witness of C19: a wrong current password is refused on the sample table,
and the right one rotates the couple digest. -/
theorem changeCouplePassword_reverifies_witness :
    ((changeCouplePassword sampleHash sampleCompare liveVisitorDb sampleClock
          { currentPassword := some "wrong", newPassword := some "NewSecret" }).db = liveVisitorDb
        ∧ (changeCouplePassword sampleHash sampleCompare liveVisitorDb sampleClock
          { currentPassword := some "wrong", newPassword := some "NewSecret" }).reply.status = 400)
      ∧ (changeCouplePassword sampleHash sampleCompare liveVisitorDb sampleClock
          { currentPassword := some "Secret123", newPassword := some "NewSecret" }).reply
        = { status := 200, body := .done "情侣密码修改成功" }
      ∧ storedValue (changeCouplePassword sampleHash sampleCompare liveVisitorDb sampleClock
          { currentPassword := some "Secret123", newPassword := some "NewSecret" }).db
          "couple_password_hash" = some "bcrypt:NewSecret" :=
  have hwrong := (changeCouplePassword_reverifies sampleHash sampleCompare liveVisitorDb
    sampleClock { currentPassword := some "wrong", newPassword := some "NewSecret" }).1
    (Or.inl (by decide))
  have hright := (changeCouplePassword_reverifies sampleHash sampleCompare liveVisitorDb
    sampleClock { currentPassword := some "Secret123", newPassword := some "NewSecret" }).2.2
    "bcrypt:NewSecret" (by decide) (by decide) rfl (by decide) (by decide) (by decide)
  ⟨⟨hwrong.1, hwrong.2.2 (by decide)⟩, hright.1, hright.2.1⟩

/-! ## Theorems: a second login on a used session -/

/-- C22, the code at the failing input: the couple password submitted on a
session that had logged in as visitor and still holds the visitor expiry.
Login succeeds as couple, and both the session and the response carry the old
expiry instead of null. -/
theorem login_couple_keeps_stale_expiry :
    login sampleCompare sampleDateParse liveVisitorDb sampleClock
        { password := some "Secret123", session := some visitorSession }
      = { reply := { status := 200,
                     body := .success (some "couple") "情侣登录成功"
                       (some "2020-01-01T00:00:00.000Z") },
          session := some { id := "sess-2", authenticated := true, userType := some "couple",
                            loginTime := some "2023-11-14T22:13:20.000Z",
                            expiryTime := some "2020-01-01T00:00:00.000Z" },
          logs := [{ level := .info, message := "情侣用户登录成功" }] } := by
  decide

/-! ## Theorems: the password history -/

/-- C21: the `GET /history` handler never returns more than 10 entries.  When
its statement is carried out it answers 200 with the entries of `items`, where
`items` together with some `rest` make up the selected columns of the whole
log, `items` has 10 rows (all of them when the log is shorter), is ordered by
`created_at` descending, and no row of `rest` is more recent than a row of
`items`.  Each entry carries the type, the creation timestamp and the display
name derived from the type; the response is the same for two logs that differ
only in their hashes.  When the statement is rejected it answers 500. -/
theorem passwordHistory_recent_ten (db : Db) :
    (passwordHistory db).entries.length ≤ 10
      ∧ (0 ∈ db.failing →
          (passwordHistory db).status = 500
            ∧ (passwordHistory db).body = .failure "获取历史失败")
      ∧ (0 ∉ db.failing →
          ∃ items rest : List HistoryItem,
            (items ++ rest).Perm (db.history.map HistoryRow.selected)
              ∧ items.length = min 10 db.history.length
              ∧ items.Pairwise (fun a b => b.created_at ≤ a.created_at)
              ∧ (∀ a ∈ items, ∀ b ∈ rest, b.created_at ≤ a.created_at)
              ∧ passwordHistory db
                  = { status := 200, body := .success (items.map historyEntry), logs := [] }
              ∧ (passwordHistory db).entries
                  = items.map (fun item =>
                      { type := item.password_type, createdAt := item.created_at,
                        displayName :=
                          if item.password_type = "couple" then "情侣密码" else "访客密码" }))
      ∧ (∀ other : Db, other.failing = db.failing →
          other.history.map HistoryRow.selected = db.history.map HistoryRow.selected →
          passwordHistory other = passwordHistory db) := by
  refine ⟨?_, ?_, ?_, ?_⟩
  · unfold passwordHistory Db.recentHistory HistoryOutcome.entries
    by_cases h0 : 0 ∈ db.failing
    · simp [h0]
    · simp only [h0, if_false, List.length_map, List.length_take]
      exact Nat.min_le_left _ _
  · intro h0
    simp [passwordHistory, Db.recentHistory, h0]
  · intro h0
    have hsorted := List.sorted_insertionSort HistoryItem.notOlder
      (db.history.map HistoryRow.selected)
    have hperm := List.perm_insertionSort HistoryItem.notOlder
      (db.history.map HistoryRow.selected)
    have hsplit := List.take_append_drop 10
      ((db.history.map HistoryRow.selected).insertionSort HistoryItem.notOlder)
    refine ⟨((db.history.map HistoryRow.selected).insertionSort HistoryItem.notOlder).take 10,
      ((db.history.map HistoryRow.selected).insertionSort HistoryItem.notOlder).drop 10,
      ?_, ?_, ?_, ?_, ?_, ?_⟩
    · rw [hsplit]
      exact hperm
    · rw [List.length_take, List.length_insertionSort, List.length_map]
    · exact List.Pairwise.sublist (List.take_sublist _ _) hsorted
    · have hpair : List.Pairwise HistoryItem.notOlder
          (((db.history.map HistoryRow.selected).insertionSort HistoryItem.notOlder).take 10
            ++ ((db.history.map HistoryRow.selected).insertionSort HistoryItem.notOlder).drop 10) := by
        rw [hsplit]
        exact hsorted
      exact (List.pairwise_append.mp hpair).2.2
    · simp [passwordHistory, Db.recentHistory, h0]
    · simp only [passwordHistory, Db.recentHistory, h0, if_false, HistoryOutcome.entries]
      rfl
  · intro other hf hh
    unfold passwordHistory Db.recentHistory
    simp only [hf, hh]

/-- Witness of C21: the sample log of twelve rows. -/
theorem passwordHistory_recent_ten_witness :
    ∃ items rest : List HistoryItem,
      (items ++ rest).Perm (sampleHistoryDb.history.map HistoryRow.selected)
        ∧ items.length = min 10 sampleHistoryDb.history.length
        ∧ items.Pairwise (fun a b => b.created_at ≤ a.created_at)
        ∧ (∀ a ∈ items, ∀ b ∈ rest, b.created_at ≤ a.created_at)
        ∧ passwordHistory sampleHistoryDb
            = { status := 200, body := .success (items.map historyEntry), logs := [] }
        ∧ (passwordHistory sampleHistoryDb).entries
            = items.map (fun item =>
                { type := item.password_type, createdAt := item.created_at,
                  displayName :=
                    if item.password_type = "couple" then "情侣密码" else "访客密码" }) :=
  (passwordHistory_recent_ten sampleHistoryDb).2.2.1 (by decide)

/-! ## Theorems: the settings a role receives -/

/-- The property names after `object[key] = value`: those before, and `key`. -/
theorem mem_keys_objectSet (object : List (String × String)) (key value name : String) :
    name ∈ (objectSet object key value).map (fun property => property.1)
      ↔ name ∈ object.map (fun property => property.1) ∨ name = key := by
  unfold objectSet
  by_cases hany : object.any (fun property => property.1 == key) = true
  · have hkeys : (object.map (fun property =>
          if property.1 == key then (key, value) else property)).map (fun property => property.1)
        = object.map (fun property => property.1) := by
      rw [List.map_map]
      apply List.map_congr_left
      intro property _
      by_cases hk : property.1 = key
      · simp [hk]
      · simp [hk]
    have hmem : key ∈ object.map (fun property => property.1) := by
      rw [List.any_eq_true] at hany
      obtain ⟨property, hp, hk⟩ := hany
      have hk2 : property.1 = key := by simpa using hk
      exact List.mem_map.mpr ⟨property, hp, hk2⟩
    rw [if_pos hany, hkeys]
    constructor
    · exact Or.inl
    · rintro (h | h)
      · exact h
      · rw [h]
        exact hmem
  · rw [if_neg hany]
    simp

/-- One round of the loop adds the key of the row when the rule lets the role
see it, and adds nothing otherwise. -/
theorem mem_keys_copySetting (userType : Option String) (settings : List (String × String))
    (setting : SettingRow) (name : String) :
    name ∈ (copySetting userType settings setting).map (fun property => property.1)
      ↔ name ∈ settings.map (fun property => property.1)
        ∨ (name = setting.key ∧ settingVisibleTo userType setting.key) := by
  unfold copySetting settingVisibleTo
  by_cases hpub : setting.key ∈ publicSettings
  · have hc : publicSettings.contains setting.key = true := by simpa using hpub
    rw [if_pos hc, mem_keys_objectSet]
    simp [hpub]
  · have hc : ¬ publicSettings.contains setting.key = true := by simpa using hpub
    rw [if_neg hc]
    by_cases hcouple : userType = some "couple" ∧ setting.key ∈ coupleOnlySettings
    · have hc2 : (userType == some "couple" && coupleOnlySettings.contains setting.key) = true := by
        simp [hcouple.1, hcouple.2]
      rw [if_pos hc2, mem_keys_objectSet]
      simp [hpub, hcouple.1, hcouple.2]
    · have hc2 : ¬ (userType == some "couple"
          && coupleOnlySettings.contains setting.key) = true := by
        simpa using hcouple
      rw [if_neg hc2]
      simp [hpub, hcouple]

/-- The property names the loop leaves behind: those it started with, and the
keys of the rows the rule lets the role see. -/
theorem mem_keys_foldl_copySetting (userType : Option String) (rows : List SettingRow)
    (settings : List (String × String)) (name : String) :
    name ∈ (rows.foldl (copySetting userType) settings).map (fun property => property.1)
      ↔ name ∈ settings.map (fun property => property.1)
        ∨ ∃ row ∈ rows, row.key = name ∧ settingVisibleTo userType name := by
  induction rows generalizing settings with
  | nil => simp
  | cons row rows ih =>
    rw [List.foldl_cons, ih, mem_keys_copySetting]
    constructor
    · rintro ((h | ⟨hname, hvis⟩) | ⟨r, hr, hkey, hvis⟩)
      · exact Or.inl h
      · exact Or.inr ⟨row, List.mem_cons_self _ _, hname.symm, hname ▸ hvis⟩
      · exact Or.inr ⟨r, List.mem_cons_of_mem _ hr, hkey, hvis⟩
    · rintro (h | ⟨r, hr, hkey, hvis⟩)
      · exact Or.inl (Or.inl h)
      · rcases List.mem_cons.mp hr with hrow | hrest
        · subst hrow
          exact Or.inl (Or.inr ⟨hkey.symm, hkey ▸ hvis⟩)
        · exact Or.inr ⟨r, hrest, hkey, hvis⟩

/-- The keys of a response of the settings handler are keys of rows that the
rule lets the role of the session see. -/
theorem mem_keys_getSettings (db : Db) (req : Request) (name : String)
    (h : name ∈ (getSettings db req).keys) :
    ∃ session, req.session = some session ∧ 0 ∉ db.failing
      ∧ (∃ row ∈ db.settings, row.key = name) ∧ settingVisibleTo session.userType name := by
  unfold getSettings SettingsOutcome.keys at h
  cases hs : req.session with
  | none => simp [hs] at h
  | some session =>
    by_cases h0 : 0 ∈ db.failing
    · simp [hs, Db.allSettings, h0] at h
    · simp only [hs, Db.allSettings, h0, if_false] at h
      rw [mem_keys_foldl_copySetting] at h
      rcases h with h | ⟨row, hrow, hkey, hvis⟩
      · simp at h
      · exact ⟨session, rfl, h0, ⟨row, hrow, hkey⟩, hvis⟩

/-- C23: every key returned by the settings handler is one of the five public
keys, or one of the three couple-only keys with the role of the session being
couple; when the statement is carried out, every key of the table that is
public, or couple-only with the role being couple, is returned; a session
whose role is not couple never receives a couple-only key; and no response
contains `couple_password_hash`, `visitor_password_hash` or `encryption_key`. -/
theorem getSettings_keys_by_role (db : Db) (req : Request) :
    (∀ key ∈ (getSettings db req).keys,
        key ∈ ["love_start_date", "couple_name_1", "couple_name_2", "couple_avatar_1",
               "couple_avatar_2"]
          ∨ ((∃ session, req.session = some session ∧ session.userType = some "couple")
              ∧ key ∈ ["couple_password", "visitor_password", "visitor_password_expires"]))
      ∧ (∀ session, req.session = some session → 0 ∉ db.failing →
          ∀ row ∈ db.settings,
            row.key ∈ publicSettings
              ∨ (session.userType = some "couple" ∧ row.key ∈ coupleOnlySettings) →
            row.key ∈ (getSettings db req).keys)
      ∧ (∀ session, req.session = some session → session.userType ≠ some "couple" →
          ∀ key ∈ (getSettings db req).keys, key ∉ coupleOnlySettings)
      ∧ (∀ key ∈ (getSettings db req).keys,
          key ≠ "couple_password_hash" ∧ key ≠ "visitor_password_hash"
            ∧ key ≠ "encryption_key") := by
  refine ⟨?_, ?_, ?_, ?_⟩
  · intro key hkey
    obtain ⟨session, hs, _, _, hvis⟩ := mem_keys_getSettings db req key hkey
    rcases hvis with hpub | ⟨hcouple, honly⟩
    · exact Or.inl hpub
    · exact Or.inr ⟨⟨session, hs, hcouple⟩, honly⟩
  · intro session hs h0 row hrow hvis
    unfold getSettings SettingsOutcome.keys
    simp only [hs, Db.allSettings, h0, if_false]
    rw [mem_keys_foldl_copySetting]
    exact Or.inr ⟨row, hrow, rfl, hvis⟩
  · intro session hs hrole key hkey honly
    obtain ⟨session2, hs2, _, _, hvis⟩ := mem_keys_getSettings db req key hkey
    have heq : session2 = session := by
      rw [hs] at hs2
      exact (Option.some.inj hs2).symm
    subst heq
    rcases hvis with hpub | ⟨hcouple, _⟩
    · have hdisjoint : ∀ k ∈ publicSettings, k ∉ coupleOnlySettings := by decide
      exact hdisjoint key hpub honly
    · exact hrole hcouple
  · intro key hkey
    obtain ⟨_, _, _, _, hvis⟩ := mem_keys_getSettings db req key hkey
    have hnone : ∀ k, k ∈ publicSettings ∨ k ∈ coupleOnlySettings →
        k ≠ "couple_password_hash" ∧ k ≠ "visitor_password_hash" ∧ k ≠ "encryption_key" := by
      intro k hk
      have hall : ∀ k ∈ publicSettings ++ coupleOnlySettings,
          k ≠ "couple_password_hash" ∧ k ≠ "visitor_password_hash"
            ∧ k ≠ "encryption_key" := by decide
      exact hall k (List.mem_append.mpr hk)
    rcases hvis with hpub | ⟨_, honly⟩
    · exact hnone key (Or.inl hpub)
    · exact hnone key (Or.inr honly)

/-- Witness of C23: on the sample table a couple session receives the
couple-only key `visitor_password_expires`, and a visitor session receives no
couple-only key. -/
theorem getSettings_keys_by_role_witness :
    "visitor_password_expires"
        ∈ (getSettings sampleHistoryDb
            { session := some coupleSession, originalUrl := "/api/settings" }).keys
      ∧ ∀ key ∈ (getSettings sampleHistoryDb
            { session := some visitorSession, originalUrl := "/api/settings" }).keys,
          key ∉ coupleOnlySettings :=
  ⟨(getSettings_keys_by_role sampleHistoryDb
      { session := some coupleSession, originalUrl := "/api/settings" }).2.1
      coupleSession rfl (by decide)
      { key := "visitor_password_expires", value := "2030-01-01T00:00:00.000Z", updated_at := "" }
      (by decide) (Or.inr ⟨rfl, by decide⟩),
    (getSettings_keys_by_role sampleHistoryDb
      { session := some visitorSession, originalUrl := "/api/settings" }).2.2.1
      visitorSession rfl (by decide)⟩

end BlogBackend
